import Mathlib

/-! LEDStripController: a shallow embedding of the driver and its wire protocol

The driver of `LEDStripController.h` / `LEDStripController.cpp` talks to a WS2812B controller
chip over a register bus (`Wire`) or over a framed serial link (`HardwareSerial`).

Conventions of the embedding:

* machine integers are natural numbers; a conversion to a narrower type that the source performs
  is written as an explicit `% 256`;
* the argument of a method ranges over the values of its C++ parameter type;
* `int` is taken to hold the value of `280 + ledCounts * 40 + 10000` exactly: this is so for
  every `u16` count where `int` has at least 32 bits, and on every build for counts up to
  1381, where the value stays below 65536;
* the outside world is the pending serial input `rx` and the ordered `trace` of everything the
  driver did to its collaborators; what the peer does during one call is the `Env` of that call;
* a result of `none` stands for undefined behaviour of the C++ source (an indeterminate read or
  an access outside an array).
-/

namespace LEDStripController

/-! ## Constants of `LEDStripController.h` -/

def REG_LEDS_COUNTS : Nat := 0
def REG_SET_LED_COLOR_DATA : Nat := 1
def REG_SET_LED_COLOR : Nat := 2
def REG_SET_ALL_LEDS_COLOR_DATA : Nat := 3
def REG_SET_ALL_LEDS_COLOR : Nat := 4
def REG_TRANS_DATA_TO_LED : Nat := 5

def REG_LEDS_COUNT_READ : Nat := 0xfa
def REG_READ_I2C_ADDRESS : Nat := 0xfb
def REG_GET_UART_BAUDRATE : Nat := 0xfb
def REG_SET_UART_BAUDRATE : Nat := 0xfc
def REG_SET_I2C_ADDRESS : Nat := 0xfd
def REG_GET_BRAND : Nat := 0xfe
def REG_GET_FIRMWARE_VERSION : Nat := 0xff

def I2C_COMMUNICATION_MODE : Nat := 0
def UART_COMMUNICATION_MODE : Nat := 1

def STRING_BRAND_LENGTH : Nat := 9
def STRING_VERSION_LENGTH : Nat := 16

def SECRET_KEY_A : Nat := 0xaa
def SECRET_KEY_B : Nat := 0xbb
def UART_START_BYTE : Nat := 0xcc
def UART_END_BYTE : Nat := 0xdd
def UART_ACK_BYTE : Nat := 0x06

/-- The enumeration `LED_TYPE`. -/
inductive LED_TYPE
  | TYPE_RGB
  | TYPE_RBG
  | TYPE_GRB
  | TYPE_GBR
  | TYPE_BRG
  | TYPE_BGR
deriving DecidableEq, Repr

/-- The enumerator values of `LED_TYPE`. -/
def LED_TYPE.code : LED_TYPE → Nat
  | TYPE_RGB => 0x06
  | TYPE_RBG => 0x09
  | TYPE_GRB => 0x12
  | TYPE_GBR => 0x21
  | TYPE_BRG => 0x18
  | TYPE_BGR => 0x24

/-- The table `_BAUDRATE[]`. -/
def _BAUDRATE : List Nat :=
  [115200, 1200, 2400, 4800, 9600, 14400, 19200,
   38400, 57600, 115200, 128000, 230400, 500000]

/-! ## State -/

/-- The data members of `class LEDStripController` (the `_serial` handle is the serial side of
`World`). -/
structure Controller where
  I2C_Address : Nat
  uartBaudrateIndex : Nat
  commMode : Nat
  ledCounts : Nat
  uartWaitAckTime : Nat
  rOffset : Nat
  gOffset : Nat
  bOffset : Nat
deriving DecidableEq, Repr

/-- What the driver does to its collaborators, one entry per call. -/
inductive Event
  /-- Call `Wire.begin()` -/
  | wireBegin
  /-- Calls `Wire.beginTransmission(addr)`, the writes, `Wire.endTransmission(sendStop)` -/
  | wireTransmission (addr : Nat) (bytes : List Nat) (sendStop : Bool)
  /-- Call `Wire.requestFrom(addr, count)` -/
  | wireRequestFrom (addr : Nat) (count : Nat)
  /-- Call `Wire.endTransmission()` with no transmission begun -/
  | wireEndTransmission
  /-- Call `_serial->begin(baud)` -/
  | serialBegin (baud : Nat)
  /-- Call `_serial->flush()` -/
  | serialFlush
  /-- Call `_serial->write(arr, size)` -/
  | serialWrite (bytes : List Nat)
  /-- Call `delayMicroseconds(us)` -/
  | delayMicroseconds (us : Nat)
  /-- Call `delay(ms)` -/
  | delay (ms : Nat)
deriving DecidableEq, Repr

/-- The outside world: the bytes waiting in the serial input buffer, and the trace so far. -/
structure World where
  rx : List Nat
  trace : List Event
deriving DecidableEq, Repr

/-- What the peer does during one call: the bytes it delivers on the serial link while the
driver waits, the code `Wire.endTransmission()` returns, and the bytes the bus holds after
`Wire.requestFrom`. -/
structure Env where
  resp : List Nat
  wireErr : Nat
  wireData : List Nat
deriving DecidableEq, Repr

/-! ## Register bus helpers -/

/-- Method `writeRegOneByte(val)`. -/
def writeRegOneByte (c : Controller) (w : World) (e : Env) (val : Nat) : Nat × World :=
  (e.wireErr, { w with trace := w.trace ++ [Event.wireTransmission c.I2C_Address [val] true] })

/-- Method `writeReg(cmd, value, size_a)`. -/
def writeReg (c : Controller) (w : World) (e : Env) (cmd : Nat) (value : List Nat)
    (size_a : Nat) : Nat × World :=
  (e.wireErr,
   { w with trace :=
       w.trace ++ [Event.wireTransmission c.I2C_Address (cmd :: value.take size_a) true] })

/-- The loop `while (Wire.available()) { recv[i++] = Wire.read(); if (i == count) break; }`
of `readReg`: the bytes stored at `recv[i]`, `recv[i+1]`, ... -/
def readRegLoop (count : Nat) : Nat → List Nat → List Nat
  | _, [] => []
  | i, b :: rest => (b % 256) :: (if i + 1 = count then [] else readRegLoop count (i + 1) rest)

/-- Method `readReg(cmd, recv, count)`: the bytes stored into `recv` from index 0 on, the error code,
and the world. -/
def readReg (c : Controller) (w : World) (e : Env) (cmd : Nat) (count : Nat) :
    List Nat × Nat × World :=
  (readRegLoop count 0 e.wireData, e.wireErr,
   { w with trace :=
       w.trace ++ [Event.wireTransmission c.I2C_Address [cmd] false,
                   Event.wireRequestFrom c.I2C_Address count,
                   Event.wireEndTransmission] })

/-! ## Serial helper -/

/-- The loop `while (_serial->available() > 0) _serial->read();`: what is left of the input. -/
def drainInput : List Nat → List Nat
  | [] => []
  | _ :: rest => drainInput rest

/-- The loop `while (_serial->available() > 0) ack = _serial->read();` from the current `ack`: the
final `ack` (a `u8`) and what is left of the input. -/
def readAck : Nat → List Nat → Nat × List Nat
  | ack, [] => (ack, [])
  | _, b :: rest => readAck (b % 256) rest

/-- The wait of `uartWriteDataToControllerWithAck` between the write and the read. -/
def ackWait (c : Controller) (isShowLed : Bool) : Event :=
  if isShowLed then
    if c.uartWaitAckTime > 16383 then
      Event.delay (c.uartWaitAckTime / 1000 + 1)
    else
      Event.delayMicroseconds c.uartWaitAckTime
  else
    Event.delayMicroseconds 9000

/-- Method `uartWriteDataToControllerWithAck(param, isShowLed)` with `param = {p0, p1, p2, p3, p4}`. -/
def uartWriteDataToControllerWithAck (c : Controller) (w : World) (e : Env)
    (p0 p1 p2 p3 p4 : Nat) (isShowLed : Bool) : Bool × World :=
  let rx0 := drainInput w.rx
  let arr7 := (UART_START_BYTE + p0 + p1 + p2 + p3 + p4 + UART_END_BYTE) % 256
  let arr := [UART_START_BYTE, p0, p1, p2, p3, p4, UART_END_BYTE, arr7]
  let tr := w.trace ++ [Event.serialFlush, Event.serialWrite arr, ackWait c isShowLed]
  let rx1 := rx0 ++ e.resp
  let r := readAck 0 rx1
  (r.1 == UART_ACK_BYTE, { rx := r.2, trace := tr })

/-! ## Construction and configuration -/

/-- Method `setLedType(t)`. -/
def setLedType (c : Controller) (t : LED_TYPE) : Controller :=
  { c with
    rOffset := (t.code >>> 4) &&& 0x03
    gOffset := (t.code >>> 2) &&& 0x03
    bOffset := t.code &&& 0x03 }

/-- The constructor `LEDStripController(u8 _address, u16 n, LED_TYPE t)`; `mem` is the
indeterminate content of the object before construction. The sum for `uartWaitAckTime` is
exact: for `n > 1381` this is the source only where `int` has at least 32 bits. -/
def ctorI2C (mem : Controller) (_address n : Nat) (t : LED_TYPE) : Controller :=
  let c := { mem with commMode := I2C_COMMUNICATION_MODE, I2C_Address := _address, ledCounts := n }
  let c := { c with uartWaitAckTime := (280 + c.ledCounts * 40) + 10000 }
  setLedType c t

/-- The scan `for (int i = 0; i < 13; i++) if (_BAUDRATE[i] == _baudrate) ...` from index `i`
with `k` iterations to go: the first index at which the test holds. -/
def baudScan (_baudrate : Nat) : Nat → Nat → Option Nat
  | _, 0 => none
  | i, k + 1 =>
    if _BAUDRATE[i]? = some _baudrate then some i else baudScan _baudrate (i + 1) k

/-- The constructor `LEDStripController(HardwareSerial *serial_param, u16 n, LED_TYPE t,
u32 _baudrate)`; `mem` is the indeterminate content of the object before construction. The
sum for `uartWaitAckTime` is exact: for `n > 1381` this is the source only where `int` has at
least 32 bits. -/
def ctorSerial (mem : Controller) (n : Nat) (t : LED_TYPE) (_baudrate : Nat) : Controller :=
  let c := { mem with uartBaudrateIndex := 0 }
  let c := match baudScan _baudrate 0 13 with
    | some i => { c with uartBaudrateIndex := i }
    | none => c
  let c := { c with commMode := UART_COMMUNICATION_MODE, ledCounts := n }
  let c := { c with uartWaitAckTime := (280 + c.ledCounts * 40) + 10000 }
  setLedType c t

/-! ## Operations -/

/-- Method `setLedCount(n)`. -/
def setLedCount (c : Controller) (w : World) (e : Env) (n : Nat) : Bool × Controller × World :=
  if c.commMode = I2C_COMMUNICATION_MODE then
    let r := writeReg c w e REG_LEDS_COUNTS [n % 256] 1
    (r.1 == 0, c, r.2)
  else
    let r := uartWriteDataToControllerWithAck c w e REG_LEDS_COUNTS (n % 256) 0 0 0 false
    (r.1, c, r.2)

/-- Method `begin()`. -/
def begin (c : Controller) (w : World) (e : Env) : Option (Bool × Controller × World) :=
  if c.commMode = I2C_COMMUNICATION_MODE then
    some (setLedCount c { w with trace := w.trace ++ [Event.wireBegin] } e c.ledCounts)
  else
    match _BAUDRATE[c.uartBaudrateIndex]? with
    | some baud =>
      some (setLedCount c { w with trace := w.trace ++ [Event.serialBegin baud] } e c.ledCounts)
    | none => none

/-- The store `p[off] = v` into `u8 p[3]`. -/
def storeSlot (p : List (Option Nat)) (off v : Nat) : Option (List (Option Nat)) :=
  if off < 3 then some (p.set off (some v)) else none

/-- The prologue of the four colour operations: `u8 p[3]; p[rOffset] = r; p[gOffset] = g;
p[bOffset] = b;` followed by the reads of `p[0]`, `p[1]`, `p[2]`. -/
def colourSlots (c : Controller) (r g b : Nat) : Option (Nat × Nat × Nat) :=
  match storeSlot [none, none, none] c.rOffset r with
  | none => none
  | some p1 =>
    match storeSlot p1 c.gOffset g with
    | none => none
    | some p2 =>
      match storeSlot p2 c.bOffset b with
      | some [some s0, some s1, some s2] => some (s0, s1, s2)
      | _ => none

/-- Method `setLedColorData(index, r, g, b)`. -/
def setLedColorData (c : Controller) (w : World) (e : Env) (index r g b : Nat) :
    Option (Bool × Controller × World) :=
  match colourSlots c r g b with
  | none => none
  | some (s0, s1, s2) =>
    if c.commMode = I2C_COMMUNICATION_MODE then
      let x := writeReg c w e REG_SET_LED_COLOR_DATA [index, s0, s1, s2] 4
      some (x.1 == 0, c, x.2)
    else
      let x := uartWriteDataToControllerWithAck c w e REG_SET_LED_COLOR_DATA index s0 s1 s2 false
      some (x.1, c, x.2)

/-- Method `setLedColor(index, r, g, b)`. -/
def setLedColor (c : Controller) (w : World) (e : Env) (index r g b : Nat) :
    Option (Bool × Controller × World) :=
  match colourSlots c r g b with
  | none => none
  | some (s0, s1, s2) =>
    if c.commMode = I2C_COMMUNICATION_MODE then
      let x := writeReg c w e REG_SET_LED_COLOR [index, s0, s1, s2] 4
      some (x.1 == 0, c, x.2)
    else
      let x := uartWriteDataToControllerWithAck c w e REG_SET_LED_COLOR index s0 s1 s2 true
      some (x.1, c, x.2)

/-- Method `setAllLedsColorData(r, g, b)`. -/
def setAllLedsColorData (c : Controller) (w : World) (e : Env) (r g b : Nat) :
    Option (Bool × Controller × World) :=
  match colourSlots c r g b with
  | none => none
  | some (s0, s1, s2) =>
    if c.commMode = I2C_COMMUNICATION_MODE then
      let x := writeReg c w e REG_SET_ALL_LEDS_COLOR_DATA [s0, s1, s2] 3
      some (x.1 == 0, c, x.2)
    else
      let x := uartWriteDataToControllerWithAck c w e REG_SET_ALL_LEDS_COLOR_DATA s0 s1 s2 0 false
      some (x.1, c, x.2)

/-- Method `setAllLedsColor(r, g, b)`. -/
def setAllLedsColor (c : Controller) (w : World) (e : Env) (r g b : Nat) :
    Option (Bool × Controller × World) :=
  match colourSlots c r g b with
  | none => none
  | some (s0, s1, s2) =>
    if c.commMode = I2C_COMMUNICATION_MODE then
      let x := writeReg c w e REG_SET_ALL_LEDS_COLOR [s0, s1, s2] 3
      some (x.1 == 0, c, x.2)
    else
      let x := uartWriteDataToControllerWithAck c w e REG_SET_ALL_LEDS_COLOR s0 s1 s2 0 true
      some (x.1, c, x.2)

/-- Method `show()`. -/
def «show» (c : Controller) (w : World) (e : Env) : Bool × Controller × World :=
  if c.commMode = I2C_COMMUNICATION_MODE then
    let x := writeRegOneByte c w e REG_TRANS_DATA_TO_LED
    (x.1 == 0, c, x.2)
  else
    let x := uartWriteDataToControllerWithAck c w e REG_TRANS_DATA_TO_LED 0 0 0 0 true
    (x.1, c, x.2)

/-- Method `getUartBaudrate()`: the value returned (`none` when `recv[0]` was never written or the
table is indexed outside its 13 entries), the controller and the world. -/
def getUartBaudrate (c : Controller) (w : World) (e : Env) : Option Nat × Controller × World :=
  if c.commMode = I2C_COMMUNICATION_MODE then
    let x := readReg c w e REG_GET_UART_BAUDRATE 1
    (match x.1 with
     | [] => none
     | b :: _ => _BAUDRATE[b]?,
     c, x.2.2)
  else
    (_BAUDRATE[c.uartBaudrateIndex]?, c, w)

/-- The body of the `if (_BAUDRATE[i] == _baudrate)` of `setUartBaudrate`, at the index `i`
found. -/
def setUartBaudrateAt (c : Controller) (w : World) (e : Env) (i : Nat) :
    Bool × Controller × World :=
  if c.commMode = I2C_COMMUNICATION_MODE then
    let x := writeReg c w e REG_SET_UART_BAUDRATE [SECRET_KEY_A, SECRET_KEY_B, i % 256] 3
    (x.1 == 0, c, x.2)
  else
    let x := uartWriteDataToControllerWithAck c w e
      REG_SET_UART_BAUDRATE SECRET_KEY_A SECRET_KEY_B (i % 256) 0 false
    (x.1, c, x.2)

/-- Method `setUartBaudrate(_baudrate)`. -/
def setUartBaudrate (c : Controller) (w : World) (e : Env) (_baudrate : Nat) :
    Bool × Controller × World :=
  match baudScan _baudrate 0 13 with
  | some i => setUartBaudrateAt c w e i
  | none => (false, c, w)

/-- Method `setI2CNewAddress(addr)`. -/
def setI2CNewAddress (c : Controller) (w : World) (e : Env) (addr : Nat) :
    Bool × Controller × World :=
  if c.commMode = I2C_COMMUNICATION_MODE then
    let x := writeReg c w e REG_SET_I2C_ADDRESS [SECRET_KEY_A, SECRET_KEY_B, addr] 3
    if x.1 = 0 then (true, { c with I2C_Address := addr }, x.2) else (false, c, x.2)
  else
    let x := uartWriteDataToControllerWithAck c w e
      REG_SET_I2C_ADDRESS SECRET_KEY_A SECRET_KEY_B addr 0 false
    if x.1 = true then (true, { c with I2C_Address := addr }, x.2) else (false, c, x.2)

/-- The overload `setLedColorData(u8 index, u32 rgb)`: the three arguments `rgb >> 16`,
`rgb >> 8`, `rgb` are converted to `u8`. -/
def setLedColorData32 (c : Controller) (w : World) (e : Env) (index rgb : Nat) :
    Option (Bool × Controller × World) :=
  setLedColorData c w e index ((rgb >>> 16) % 256) ((rgb >>> 8) % 256) (rgb % 256)

/-- The overload `setLedColor(u8 index, u32 rgb)`. -/
def setLedColor32 (c : Controller) (w : World) (e : Env) (index rgb : Nat) :
    Option (Bool × Controller × World) :=
  setLedColor c w e index ((rgb >>> 16) % 256) ((rgb >>> 8) % 256) (rgb % 256)

/-- The overload `setAllLedsColorData(u32 rgb)`. -/
def setAllLedsColorData32 (c : Controller) (w : World) (e : Env) (rgb : Nat) :
    Option (Bool × Controller × World) :=
  setAllLedsColorData c w e ((rgb >>> 16) % 256) ((rgb >>> 8) % 256) (rgb % 256)

/-- The overload `setAllLedsColor(u32 rgb)`. -/
def setAllLedsColor32 (c : Controller) (w : World) (e : Env) (rgb : Nat) :
    Option (Bool × Controller × World) :=
  setAllLedsColor c w e ((rgb >>> 16) % 256) ((rgb >>> 8) % 256) (rgb % 256)

/-! ## Read operations -/

/-- The first four statements of the serial branch of every read operation: flush, drain,
write of the frame `{UART_START_BYTE, reg, 0, 0, 0, 0, UART_END_BYTE, sum}`, `delay(10)`; the
bytes the peer delivers arrive during the delay. -/
def uartRequest (w : World) (e : Env) (reg : Nat) : World :=
  let rx0 := drainInput w.rx
  let arr7 := (UART_START_BYTE + reg + 0 + 0 + 0 + 0 + UART_END_BYTE) % 256
  let arr := [UART_START_BYTE, reg, 0, 0, 0, 0, UART_END_BYTE, arr7]
  { rx := rx0 ++ e.resp,
    trace := w.trace ++ [Event.serialFlush, Event.serialWrite arr, Event.delay 10] }

/-- Method `getLedsCountFromController()`; `none` when `recv[0]` was never written. -/
def getLedsCountFromController (c : Controller) (w : World) (e : Env) :
    Option Nat × Controller × World :=
  if c.commMode = I2C_COMMUNICATION_MODE then
    let x := readReg c w e REG_LEDS_COUNT_READ 1
    (x.1.head?, c, x.2.2)
  else
    let w1 := uartRequest w e REG_LEDS_COUNT_READ
    let r := readAck 0 w1.rx
    (some r.1, c, { w1 with rx := r.2 })

/-- Method `getI2CAddress()`. -/
def getI2CAddress (c : Controller) (w : World) (e : Env) : Nat × Controller × World :=
  if c.commMode = I2C_COMMUNICATION_MODE then
    (c.I2C_Address, c, w)
  else
    let w1 := uartRequest w e REG_READ_I2C_ADDRESS
    let r := readAck 0 w1.rx
    (r.1, c, { w1 with rx := r.2 })

/-- The loop `while (_serial->available() && i < len) buf[i++] = _serial->read();` from
index `i`: the bytes stored at `buf[i]`, `buf[i+1]`, ..., and what is left of the input. -/
def readChars (len : Nat) : Nat → List Nat → List Nat × List Nat
  | _, [] => ([], [])
  | i, b :: rest =>
    if i < len then
      let r := readChars len (i + 1) rest
      ((b % 256) :: r.1, r.2)
    else
      ([], b :: rest)

/-- The array `char buf[len] = {0}` after the bytes `stored` were written from index 0 on. -/
def zeroFilled (len : Nat) (stored : List Nat) : List Nat :=
  stored ++ List.replicate (len - stored.length) 0

/-- The constructor `String(const char *)` on an array whose known content is `buf`: the
characters before the first NUL; `none` when `buf` has no NUL, as the read then leaves the
known content. -/
def cString (buf : List Nat) : Option (List Nat) :=
  if 0 ∈ buf then some (buf.takeWhile (fun b => b != 0)) else none

/-- The serial branch of `getBrand()` up to the end of its loop: the array `brand` and the
world. -/
def getBrandBuffer (w : World) (e : Env) : List Nat × World :=
  let w1 := uartRequest w e REG_GET_BRAND
  let r := readChars STRING_BRAND_LENGTH 0 w1.rx
  (zeroFilled STRING_BRAND_LENGTH r.1, { w1 with rx := r.2 })

/-- Method `getBrand()`. -/
def getBrand (c : Controller) (w : World) (e : Env) : Option (List Nat) × Controller × World :=
  if c.commMode = I2C_COMMUNICATION_MODE then
    let x := readReg c w e REG_GET_BRAND STRING_BRAND_LENGTH
    (cString x.1, c, x.2.2)
  else
    let x := getBrandBuffer w e
    (cString x.1, c, x.2)

/-- The serial branch of `getFirmwareVersion()` up to the end of its loop: the array `buf`
and the world. -/
def getFirmwareVersionBuffer (w : World) (e : Env) : List Nat × World :=
  let w1 := uartRequest w e REG_GET_FIRMWARE_VERSION
  let r := readChars STRING_VERSION_LENGTH 0 w1.rx
  (zeroFilled STRING_VERSION_LENGTH r.1, { w1 with rx := r.2 })

/-- Method `getFirmwareVersion()`. -/
def getFirmwareVersion (c : Controller) (w : World) (e : Env) :
    Option (List Nat) × Controller × World :=
  if c.commMode = I2C_COMMUNICATION_MODE then
    let x := readReg c w e REG_GET_FIRMWARE_VERSION STRING_VERSION_LENGTH
    (cString x.1, c, x.2.2)
  else
    let x := getFirmwareVersionBuffer w e
    (cString x.1, c, x.2)

/-! ## The colour wheel -/

/-- Subtraction of `u32` values. -/
def sub32 (a b : Nat) : Nat := (a + 2 ^ 32 - b) % 2 ^ 32

/-- Multiplication of `u32` values. -/
def mul32 (a b : Nat) : Nat := (a * b) % 2 ^ 32

/-- Left shift of a `u32` value. -/
def shl32 (a k : Nat) : Nat := (a <<< k) % 2 ^ 32

/-- Method `Wheel(pos)`. -/
def Wheel (pos : Nat) : Nat :=
  let WheelPos := pos % 0xff
  if WheelPos < 85 then
    shl32 (sub32 255 (mul32 WheelPos 3)) 16 ||| shl32 (mul32 WheelPos 3) 8
  else if WheelPos < 170 then
    let WheelPos := sub32 WheelPos 85
    shl32 (sub32 255 (mul32 WheelPos 3)) 8 ||| mul32 WheelPos 3
  else
    let WheelPos := sub32 WheelPos 170
    shl32 (mul32 WheelPos 3) 16 ||| sub32 255 (mul32 WheelPos 3)

/-! ## Sequences of calls -/

/-- The public methods of the class, with their arguments. -/
inductive Call
  | begin
  | setLedCount (n : Nat)
  | setLedType (t : LED_TYPE)
  | setLedColorData (index r g b : Nat)
  | setLedColorData32 (index rgb : Nat)
  | setLedColor (index r g b : Nat)
  | setLedColor32 (index rgb : Nat)
  | setAllLedsColorData (r g b : Nat)
  | setAllLedsColorData32 (rgb : Nat)
  | setAllLedsColor (r g b : Nat)
  | setAllLedsColor32 (rgb : Nat)
  | «show»
  | getLedsCountFromController
  | getI2CAddress
  | getUartBaudrate
  | setUartBaudrate (_baudrate : Nat)
  | setI2CNewAddress (addr : Nat)
  | getBrand
  | getFirmwareVersion
  | Wheel (pos : Nat)
deriving DecidableEq, Repr

/-- One call on the controller `c` in the world `w` against the peer `e`: the controller and
the world after it, the value returned being dropped; `none` when the call has no defined
outcome. -/
def exec (call : Call) (e : Env) (c : Controller) (w : World) : Option (Controller × World) :=
  match call with
  | Call.begin => (begin c w e).map (fun x => x.2)
  | Call.setLedCount n => some (setLedCount c w e n).2
  | Call.setLedType t => some (setLedType c t, w)
  | Call.setLedColorData index r g b => (setLedColorData c w e index r g b).map (fun x => x.2)
  | Call.setLedColorData32 index rgb => (setLedColorData32 c w e index rgb).map (fun x => x.2)
  | Call.setLedColor index r g b => (setLedColor c w e index r g b).map (fun x => x.2)
  | Call.setLedColor32 index rgb => (setLedColor32 c w e index rgb).map (fun x => x.2)
  | Call.setAllLedsColorData r g b => (setAllLedsColorData c w e r g b).map (fun x => x.2)
  | Call.setAllLedsColorData32 rgb => (setAllLedsColorData32 c w e rgb).map (fun x => x.2)
  | Call.setAllLedsColor r g b => (setAllLedsColor c w e r g b).map (fun x => x.2)
  | Call.setAllLedsColor32 rgb => (setAllLedsColor32 c w e rgb).map (fun x => x.2)
  | Call.show => some («show» c w e).2
  | Call.getLedsCountFromController =>
    (getLedsCountFromController c w e).1.map (fun _ => (getLedsCountFromController c w e).2)
  | Call.getI2CAddress => some (getI2CAddress c w e).2
  | Call.getUartBaudrate => (getUartBaudrate c w e).1.map (fun _ => (getUartBaudrate c w e).2)
  | Call.setUartBaudrate _baudrate => some (setUartBaudrate c w e _baudrate).2
  | Call.setI2CNewAddress addr => some (setI2CNewAddress c w e addr).2
  | Call.getBrand => (getBrand c w e).1.map (fun _ => (getBrand c w e).2)
  | Call.getFirmwareVersion =>
    (getFirmwareVersion c w e).1.map (fun _ => (getFirmwareVersion c w e).2)
  | Call.Wheel _ => some (c, w)

/-- A sequence of calls, each against its own peer behaviour, from the controller `c` in the
world `w`. -/
def run : List (Call × Env) → Controller → World → Option (Controller × World)
  | [], c, w => some (c, w)
  | (call, e) :: rest, c, w =>
    match exec call e c w with
    | none => none
    | some (c1, w1) => run rest c1 w1

/-! ## Reading the trace -/

/-- The time a wait blocks for, in microseconds: `delay(ms)` is `ms` milliseconds. -/
def waitMicros : Event → Nat
  | Event.delay ms => ms * 1000
  | Event.delayMicroseconds us => us
  | _ => 0

/-- The agreement of the two transports on one operation started from the trace `base`: the
register bus carries one transmission of a command byte and a payload of at most four bytes,
and the serial link carries one frame with the same command id whose four data bytes are
that payload padded on the right with zero bytes. -/
def sameEncoding (base bus serial : List Event) : Prop :=
  ∃ addr cmd payload k wt,
    List.length payload ≤ 4 ∧
    bus = base ++ [Event.wireTransmission addr (cmd :: payload) true] ∧
    serial = base ++
      [Event.serialFlush,
       Event.serialWrite
         ([0xCC, cmd] ++ (payload ++ List.replicate (4 - List.length payload) 0) ++ [0xDD, k]),
       wt]

/-! ## Sample inputs -/

/-- An all-zero object, for concrete runs. -/
def mem0 : Controller :=
  { I2C_Address := 0, uartBaudrateIndex := 0, commMode := 0, ledCounts := 0,
    uartWaitAckTime := 0, rOffset := 0, gOffset := 0, bOffset := 0 }

/-- A world with nothing pending and nothing done. -/
def world0 : World := { rx := [], trace := [] }

/-- A peer that answers with the single ACK byte and reports no bus error. -/
def envAck : Env := { resp := [0x06], wireErr := 0, wireData := [] }

/-- A peer that stays silent on the serial link and reports bus error 2. -/
def envFail : Env := { resp := [], wireErr := 2, wireData := [] }

/-! ## Facts about the helpers -/

theorem drainInput_eq_nil (l : List Nat) : drainInput l = [] := by
  induction l with
  | nil => rfl
  | cons _ rest ih => simpa [drainInput] using ih

theorem readAck_eq (l : List Nat) (ack : Nat) :
    readAck ack l = ((l.getLast?.map (fun b => b % 256)).getD ack, []) := by
  induction l generalizing ack with
  | nil => rfl
  | cons b rest ih =>
    rw [readAck, ih]
    cases rest with
    | nil => rfl
    | cons b2 rest2 =>
      rw [List.getLast?_cons_cons]
      cases h : (b2 :: rest2).getLast? with
      | none => simp at h
      | some x => rfl

/-- What one call of `uartWriteDataToControllerWithAck` returns and leaves behind. -/
theorem uartWrite_eq (c : Controller) (w : World) (e : Env) (p0 p1 p2 p3 p4 : Nat)
    (isShowLed : Bool) :
    uartWriteDataToControllerWithAck c w e p0 p1 p2 p3 p4 isShowLed =
      ((e.resp.getLast?.map (fun b => b % 256)).getD 0 == UART_ACK_BYTE,
       { rx := [],
         trace := w.trace ++
           [Event.serialFlush,
            Event.serialWrite [0xCC, p0, p1, p2, p3, p4, 0xDD,
              (0xCC + p0 + p1 + p2 + p3 + p4 + 0xDD) % 256],
            ackWait c isShowLed] }) := by
  simp [uartWriteDataToControllerWithAck, drainInput_eq_nil, readAck_eq, UART_START_BYTE,
    UART_END_BYTE]

/-- For each of the six type codes the three stores fill the three slots. -/
theorem colourSlots_setLedType (t : LED_TYPE) (c : Controller) (r g b : Nat) :
    ∃ s0 s1 s2 : Nat,
      colourSlots (setLedType c t) r g b = some (s0, s1, s2) ∧
      [s0, s1, s2][(setLedType c t).rOffset]? = some r ∧
      [s0, s1, s2][(setLedType c t).gOffset]? = some g ∧
      [s0, s1, s2][(setLedType c t).bOffset]? = some b := by
  cases t
  · exact ⟨r, g, b, rfl, rfl, rfl, rfl⟩
  · exact ⟨r, b, g, rfl, rfl, rfl, rfl⟩
  · exact ⟨g, r, b, rfl, rfl, rfl, rfl⟩
  · exact ⟨g, b, r, rfl, rfl, rfl, rfl⟩
  · exact ⟨b, r, g, rfl, rfl, rfl, rfl⟩
  · exact ⟨b, g, r, rfl, rfl, rfl, rfl⟩

theorem setLedType_commMode (c : Controller) (t : LED_TYPE) :
    (setLedType c t).commMode = c.commMode := rfl

theorem setLedType_I2C_Address (c : Controller) (t : LED_TYPE) :
    (setLedType c t).I2C_Address = c.I2C_Address := rfl

theorem ctorSerial_commMode (mem : Controller) (n : Nat) (t : LED_TYPE) (baud : Nat) :
    (ctorSerial mem n t baud).commMode = UART_COMMUNICATION_MODE := rfl

theorem ctorSerial_ledCounts (mem : Controller) (n : Nat) (t : LED_TYPE) (baud : Nat) :
    (ctorSerial mem n t baud).ledCounts = n := rfl

theorem ctorSerial_uartWaitAckTime (mem : Controller) (n : Nat) (t : LED_TYPE) (baud : Nat) :
    (ctorSerial mem n t baud).uartWaitAckTime = 280 + n * 40 + 10000 := rfl

theorem ctorSerial_uartBaudrateIndex (mem : Controller) (n : Nat) (t : LED_TYPE) (baud : Nat) :
    (ctorSerial mem n t baud).uartBaudrateIndex = (baudScan baud 0 13).getD 0 := by
  unfold ctorSerial
  cases baudScan baud 0 13 <;> rfl

theorem ctorSerial_not_I2C (mem : Controller) (n : Nat) (t : LED_TYPE) (baud : Nat) :
    (ctorSerial mem n t baud).commMode ≠ I2C_COMMUNICATION_MODE := by
  rw [ctorSerial_commMode]
  decide

/-- What a successful scan of the baud table found: the first index, from `i` on, whose entry
is the rate. -/
theorem baudScan_some (r : Nat) :
    ∀ (k i j : Nat), baudScan r i k = some j →
      i ≤ j ∧ j < i + k ∧ _BAUDRATE[j]? = some r ∧
        ∀ m, i ≤ m → m < j → _BAUDRATE[m]? ≠ some r := by
  intro k
  induction k with
  | zero => intro i j h; simp [baudScan] at h
  | succ k ih =>
    intro i j h
    rw [baudScan] at h
    by_cases hi : _BAUDRATE[i]? = some r
    · rw [if_pos hi] at h
      obtain rfl : i = j := by simpa using h
      exact ⟨le_refl _, by omega, hi, fun m h1 h2 => by omega⟩
    · rw [if_neg hi] at h
      obtain ⟨h1, h2, h3, h4⟩ := ih (i + 1) j h
      refine ⟨by omega, by omega, h3, fun m hm1 hm2 => ?_⟩
      by_cases hmi : m = i
      · subst hmi; exact hi
      · exact h4 m (by omega) hm2

/-- A failed scan of the baud table saw no entry equal to the rate. -/
theorem baudScan_none (r : Nat) :
    ∀ (k i : Nat), baudScan r i k = none →
      ∀ m, i ≤ m → m < i + k → _BAUDRATE[m]? ≠ some r := by
  intro k
  induction k with
  | zero => intro i _ m h1 h2; omega
  | succ k ih =>
    intro i h m hm1 hm2
    rw [baudScan] at h
    by_cases hi : _BAUDRATE[i]? = some r
    · rw [if_pos hi] at h; simp at h
    · rw [if_neg hi] at h
      by_cases hmi : m = i
      · subst hmi; exact hi
      · exact ih (i + 1) h m (by omega) (by omega)

theorem baudScan_of_not_mem (r : Nat) (h : r ∉ _BAUDRATE) : baudScan r 0 13 = none := by
  cases hs : baudScan r 0 13 with
  | none => rfl
  | some j => exact absurd (List.getElem?_mem (baudScan_some r 13 0 j hs).2.2.1) h

theorem baudScan_of_mem (r : Nat) (h : r ∈ _BAUDRATE) : ∃ j, baudScan r 0 13 = some j := by
  cases hs : baudScan r 0 13 with
  | some j => exact ⟨j, rfl⟩
  | none =>
    obtain ⟨m, hm⟩ := List.getElem?_of_mem h
    obtain ⟨hlt, _⟩ := List.getElem?_eq_some.mp hm
    have hlen : _BAUDRATE.length = 13 := rfl
    exact absurd hm (baudScan_none r 13 0 hs m (Nat.zero_le _) (by omega))

/-- The index the serial constructor stores is inside the table. -/
theorem ctorSerial_index_entry (mem : Controller) (n : Nat) (t : LED_TYPE) (baud : Nat) :
    ∃ rate, _BAUDRATE[(ctorSerial mem n t baud).uartBaudrateIndex]? = some rate := by
  rw [ctorSerial_uartBaudrateIndex]
  cases hs : baudScan baud 0 13 with
  | none => exact ⟨115200, rfl⟩
  | some j => exact ⟨baud, (baudScan_some baud 13 0 j hs).2.2.1⟩

/-- No path of `setUartBaudrate` assigns a data member. -/
theorem setUartBaudrate_ctrl (c : Controller) (w : World) (e : Env) (rate : Nat) :
    (setUartBaudrate c w e rate).2.1 = c := by
  unfold setUartBaudrate
  cases baudScan rate 0 13 with
  | none => rfl
  | some i =>
    show (setUartBaudrateAt c w e i).2.1 = c
    unfold setUartBaudrateAt
    split <;> rfl

/-- The rate the serial constructor's index stands for. -/
theorem ctorSerial_rate (mem : Controller) (n : Nat) (t : LED_TYPE) (baud : Nat) :
    _BAUDRATE[(ctorSerial mem n t baud).uartBaudrateIndex]? =
      some (if baud ∈ _BAUDRATE then baud else 115200) := by
  rw [ctorSerial_uartBaudrateIndex]
  by_cases hmem : baud ∈ _BAUDRATE
  · obtain ⟨j, hj⟩ := baudScan_of_mem baud hmem
    rw [hj, if_pos hmem]
    exact (baudScan_some baud 13 0 j hj).2.2.1
  · rw [baudScan_of_not_mem baud hmem, if_neg hmem]
    rfl

/-- The serial constructor ends with `setLedType(t)`. -/
theorem ctorSerial_eq_setLedType (mem : Controller) (n : Nat) (t : LED_TYPE) (baud : Nat) :
    ctorSerial mem n t baud = setLedType (ctorSerial mem n t baud) t := rfl

/-- The long wait of a controller built by the serial constructor. -/
theorem ackWait_ctorSerial (mem : Controller) (n : Nat) (t : LED_TYPE) (baud : Nat) :
    ackWait (ctorSerial mem n t baud) true =
      (if 280 + n * 40 + 10000 ≤ 16383 then Event.delayMicroseconds (280 + n * 40 + 10000)
       else Event.delay ((280 + n * 40 + 10000) / 1000 + 1)) := by
  simp only [ackWait, ctorSerial_uartWaitAckTime, if_true]
  by_cases h : 280 + n * 40 + 10000 ≤ 16383
  · rw [if_pos h, if_neg (by omega)]
  · rw [if_neg h, if_pos (by omega)]

/-- The trace of `setUartBaudrate` once the scan has found index `i`. -/
theorem setUartBaudrate_trace (c : Controller) (w : World) (e : Env) (rate i : Nat)
    (hs : baudScan rate 0 13 = some i) :
    (setUartBaudrate c w e rate).2.2.trace =
      w.trace ++
        (if c.commMode = I2C_COMMUNICATION_MODE then
          [Event.wireTransmission c.I2C_Address [0xFC, 0xAA, 0xBB, i] true]
        else
          [Event.serialFlush,
           Event.serialWrite [0xCC, 0xFC, 0xAA, 0xBB, i, 0, 0xDD,
             (0xCC + 0xFC + 0xAA + 0xBB + i + 0 + 0xDD) % 256],
           Event.delayMicroseconds 9000]) := by
  have hi : i % 256 = i := Nat.mod_eq_of_lt (by have := (baudScan_some rate 13 0 i hs).2.1; omega)
  unfold setUartBaudrate
  rw [hs]
  show (setUartBaudrateAt c w e i).2.2.trace = _
  by_cases hm : c.commMode = I2C_COMMUNICATION_MODE <;>
    simp [setUartBaudrateAt, hm, hi, writeReg, uartWrite_eq, ackWait, REG_SET_UART_BAUDRATE,
      SECRET_KEY_A, SECRET_KEY_B]

/-- The traces of the four colour operations once the slots are known. -/
theorem colour_ops_trace (c : Controller) (w : World) (e : Env) (idx r g b s0 s1 s2 : Nat)
    (hs : colourSlots c r g b = some (s0, s1, s2)) :
    (setLedColorData c w e idx r g b).map (fun x => x.2.2.trace) =
        some (w.trace ++
          if c.commMode = I2C_COMMUNICATION_MODE then
            [Event.wireTransmission c.I2C_Address [0x01, idx, s0, s1, s2] true]
          else
            [Event.serialFlush,
             Event.serialWrite [0xCC, 0x01, idx, s0, s1, s2, 0xDD,
               (0xCC + 0x01 + idx + s0 + s1 + s2 + 0xDD) % 256],
             ackWait c false]) ∧
      (setLedColor c w e idx r g b).map (fun x => x.2.2.trace) =
        some (w.trace ++
          if c.commMode = I2C_COMMUNICATION_MODE then
            [Event.wireTransmission c.I2C_Address [0x02, idx, s0, s1, s2] true]
          else
            [Event.serialFlush,
             Event.serialWrite [0xCC, 0x02, idx, s0, s1, s2, 0xDD,
               (0xCC + 0x02 + idx + s0 + s1 + s2 + 0xDD) % 256],
             ackWait c true]) ∧
      (setAllLedsColorData c w e r g b).map (fun x => x.2.2.trace) =
        some (w.trace ++
          if c.commMode = I2C_COMMUNICATION_MODE then
            [Event.wireTransmission c.I2C_Address [0x03, s0, s1, s2] true]
          else
            [Event.serialFlush,
             Event.serialWrite [0xCC, 0x03, s0, s1, s2, 0, 0xDD,
               (0xCC + 0x03 + s0 + s1 + s2 + 0 + 0xDD) % 256],
             ackWait c false]) ∧
      (setAllLedsColor c w e r g b).map (fun x => x.2.2.trace) =
        some (w.trace ++
          if c.commMode = I2C_COMMUNICATION_MODE then
            [Event.wireTransmission c.I2C_Address [0x04, s0, s1, s2] true]
          else
            [Event.serialFlush,
             Event.serialWrite [0xCC, 0x04, s0, s1, s2, 0, 0xDD,
               (0xCC + 0x04 + s0 + s1 + s2 + 0 + 0xDD) % 256],
             ackWait c true]) := by
  refine ⟨?_, ?_, ?_, ?_⟩
  · by_cases hm : c.commMode = I2C_COMMUNICATION_MODE <;>
      simp [setLedColorData, hs, hm, writeReg, uartWrite_eq, REG_SET_LED_COLOR_DATA]
  · by_cases hm : c.commMode = I2C_COMMUNICATION_MODE <;>
      simp [setLedColor, hs, hm, writeReg, uartWrite_eq, REG_SET_LED_COLOR]
  · by_cases hm : c.commMode = I2C_COMMUNICATION_MODE <;>
      simp [setAllLedsColorData, hs, hm, writeReg, uartWrite_eq, REG_SET_ALL_LEDS_COLOR_DATA]
  · by_cases hm : c.commMode = I2C_COMMUNICATION_MODE <;>
      simp [setAllLedsColor, hs, hm, writeReg, uartWrite_eq, REG_SET_ALL_LEDS_COLOR]

/-- The trace of `show()`. -/
theorem show_trace (c : Controller) (w : World) (e : Env) :
    («show» c w e).2.2.trace =
      w.trace ++
        if c.commMode = I2C_COMMUNICATION_MODE then
          [Event.wireTransmission c.I2C_Address [0x05] true]
        else
          [Event.serialFlush, Event.serialWrite [0xCC, 0x05, 0, 0, 0, 0, 0xDD, 0xAE],
           ackWait c true] := by
  by_cases hm : c.commMode = I2C_COMMUNICATION_MODE <;>
    simp [«show», hm, writeRegOneByte, uartWrite_eq, REG_TRANS_DATA_TO_LED]

/-- The trace of `setI2CNewAddress`. -/
theorem setI2CNewAddress_trace (c : Controller) (w : World) (e : Env) (addr : Nat) :
    (setI2CNewAddress c w e addr).2.2.trace =
      w.trace ++
        if c.commMode = I2C_COMMUNICATION_MODE then
          [Event.wireTransmission c.I2C_Address [0xFD, 0xAA, 0xBB, addr] true]
        else
          [Event.serialFlush,
           Event.serialWrite [0xCC, 0xFD, 0xAA, 0xBB, addr, 0, 0xDD,
             (0xCC + 0xFD + 0xAA + 0xBB + addr + 0 + 0xDD) % 256],
           Event.delayMicroseconds 9000] := by
  unfold setI2CNewAddress
  by_cases hm : c.commMode = I2C_COMMUNICATION_MODE
  · by_cases he : e.wireErr = 0 <;>
      simp [hm, he, writeReg, REG_SET_I2C_ADDRESS, SECRET_KEY_A, SECRET_KEY_B]
  · simp only [if_neg hm, uartWrite_eq]
    split <;> simp [ackWait, REG_SET_I2C_ADDRESS, SECRET_KEY_A, SECRET_KEY_B]

/-- The trace of `setLedCount`. -/
theorem setLedCount_trace (c : Controller) (w : World) (e : Env) (n : Nat) :
    (setLedCount c w e n).2.2.trace =
      w.trace ++
        if c.commMode = I2C_COMMUNICATION_MODE then
          [Event.wireTransmission c.I2C_Address [0x00, n % 256] true]
        else
          [Event.serialFlush,
           Event.serialWrite [0xCC, 0x00, n % 256, 0, 0, 0, 0xDD,
             (0xCC + 0x00 + n % 256 + 0 + 0 + 0 + 0xDD) % 256],
           Event.delayMicroseconds 9000] := by
  by_cases hm : c.commMode = I2C_COMMUNICATION_MODE <;>
    simp [setLedCount, hm, writeReg, uartWrite_eq, ackWait, REG_LEDS_COUNTS]

/-- No path of `setLedCount` assigns a data member. -/
theorem setLedCount_ctrl (c : Controller) (w : World) (e : Env) (n : Nat) :
    (setLedCount c w e n).2.1 = c := by
  unfold setLedCount
  split <;> rfl

/-- The loop of the string reads stores the first `len - i` bytes and leaves the rest. -/
theorem readChars_eq (len : Nat) (rx : List Nat) (i : Nat) :
    readChars len i rx = ((rx.take (len - i)).map (fun b => b % 256), rx.drop (len - i)) := by
  induction rx generalizing i with
  | nil => simp [readChars]
  | cons b rest ih =>
    rw [readChars]
    by_cases hi : i < len
    · have hk : len - i = (len - (i + 1)) + 1 := by omega
      rw [if_pos hi, ih, hk]
      rfl
    · have hk : len - i = 0 := by omega
      rw [if_neg hi, hk]
      rfl

/-- Bytes below 256 are stored as they are. -/
theorem map_mod_of_bytes (l : List Nat) (hb : ∀ b ∈ l, b < 256) :
    l.map (fun b => b % 256) = l := by
  induction l with
  | nil => rfl
  | cons a rest ih =>
    have ha : a % 256 = a := Nat.mod_eq_of_lt (hb a (List.mem_cons_self _ _))
    have hr := ih (fun b hmem => hb b (List.mem_cons_of_mem _ hmem))
    simp [ha, hr]

/-- The array and the serial input after the loop of a string read of length `len`, when the
peer has delivered `e.resp` during the wait. -/
theorem readChars_uartRequest (len reg : Nat) (w : World) (e : Env)
    (hb : ∀ b ∈ e.resp, b < 256) :
    zeroFilled len (readChars len 0 (uartRequest w e reg).rx).1 =
        e.resp.take len ++ List.replicate (len - min e.resp.length len) 0 ∧
      (readChars len 0 (uartRequest w e reg).rx).2 = e.resp.drop len := by
  have hrx : (uartRequest w e reg).rx = e.resp := by
    simp [uartRequest, drainInput_eq_nil]
  have htake : ∀ b ∈ e.resp.take len, b < 256 := fun b hmem => hb b (List.mem_of_mem_take hmem)
  rw [hrx, readChars_eq, Nat.sub_zero, map_mod_of_bytes _ htake]
  refine ⟨?_, rfl⟩
  simp [zeroFilled, Nat.min_comm]

/-- No path of `begin` assigns a data member. -/
theorem begin_ctrl (c : Controller) (w : World) (e : Env) (x : Bool × Controller × World)
    (h : begin c w e = some x) : x.2.1 = c := by
  unfold begin at h
  split at h
  · cases h; exact setLedCount_ctrl _ _ _ _
  · split at h
    · cases h; exact setLedCount_ctrl _ _ _ _
    · cases h

/-- No path of `setLedColorData` assigns a data member. -/
theorem setLedColorData_ctrl (c : Controller) (w : World) (e : Env) (index r g b : Nat)
    (x : Bool × Controller × World) (h : setLedColorData c w e index r g b = some x) :
    x.2.1 = c := by
  unfold setLedColorData at h
  split at h
  · cases h
  · split at h <;> (cases h; rfl)

/-- No path of `setLedColor` assigns a data member. -/
theorem setLedColor_ctrl (c : Controller) (w : World) (e : Env) (index r g b : Nat)
    (x : Bool × Controller × World) (h : setLedColor c w e index r g b = some x) :
    x.2.1 = c := by
  unfold setLedColor at h
  split at h
  · cases h
  · split at h <;> (cases h; rfl)

/-- No path of `setAllLedsColorData` assigns a data member. -/
theorem setAllLedsColorData_ctrl (c : Controller) (w : World) (e : Env) (r g b : Nat)
    (x : Bool × Controller × World) (h : setAllLedsColorData c w e r g b = some x) :
    x.2.1 = c := by
  unfold setAllLedsColorData at h
  split at h
  · cases h
  · split at h <;> (cases h; rfl)

/-- No path of `setAllLedsColor` assigns a data member. -/
theorem setAllLedsColor_ctrl (c : Controller) (w : World) (e : Env) (r g b : Nat)
    (x : Bool × Controller × World) (h : setAllLedsColor c w e r g b = some x) :
    x.2.1 = c := by
  unfold setAllLedsColor at h
  split at h
  · cases h
  · split at h <;> (cases h; rfl)

/-- No path of `show` assigns a data member. -/
theorem show_ctrl (c : Controller) (w : World) (e : Env) : («show» c w e).2.1 = c := by
  unfold «show»
  split <;> rfl

/-- The read operations assign no data member. -/
theorem reads_ctrl (c : Controller) (w : World) (e : Env) :
    (getLedsCountFromController c w e).2.1 = c ∧ (getI2CAddress c w e).2.1 = c ∧
      (getUartBaudrate c w e).2.1 = c ∧ (getBrand c w e).2.1 = c ∧
      (getFirmwareVersion c w e).2.1 = c := by
  refine ⟨?_, ?_, ?_, ?_, ?_⟩
  · unfold getLedsCountFromController; split <;> rfl
  · unfold getI2CAddress; split <;> rfl
  · unfold getUartBaudrate; split <;> rfl
  · unfold getBrand; split <;> rfl
  · unfold getFirmwareVersion; split <;> rfl

/-- The only data member `setI2CNewAddress` may assign is `I2C_Address`. -/
theorem setI2CNewAddress_keeps (c : Controller) (w : World) (e : Env) (addr : Nat) :
    (setI2CNewAddress c w e addr).2.1.uartBaudrateIndex = c.uartBaudrateIndex ∧
      (setI2CNewAddress c w e addr).2.1.commMode = c.commMode := by
  unfold setI2CNewAddress
  by_cases hm : c.commMode = I2C_COMMUNICATION_MODE
  · rw [if_pos hm]
    by_cases hx : (writeReg c w e REG_SET_I2C_ADDRESS [SECRET_KEY_A, SECRET_KEY_B, addr] 3).1 = 0
    · simp [hx]
    · simp [hx]
  · rw [if_neg hm]
    by_cases hx : (uartWriteDataToControllerWithAck c w e
        REG_SET_I2C_ADDRESS SECRET_KEY_A SECRET_KEY_B addr 0 false).1 = true
    · simp [hx]
    · simp [hx]

/-- A state change read off an optional result whose controller is the one before. -/
theorem map_snd_ctrl (o : Option (Bool × Controller × World)) (c c2 : Controller) (w2 : World)
    (hc : ∀ x, o = some x → x.2.1 = c) (h : o.map (fun x => x.2) = some (c2, w2)) :
    c2 = c := by
  cases o with
  | none => cases h
  | some x =>
    have hx := hc x rfl
    simp only [Option.map_some'] at h
    have h2 : x.2 = (c2, w2) := Option.some.inj h
    rw [← hx, h2]

/-- A state change read off a result with an optional value. -/
theorem map_const_ctrl {α : Type} (v : Option α) (p : Controller × World) (c c2 : Controller)
    (w2 : World) (hc : p.1 = c) (h : v.map (fun _ => p) = some (c2, w2)) : c2 = c := by
  cases v with
  | none => cases h
  | some a =>
    simp only [Option.map_some'] at h
    have h2 : p = (c2, w2) := Option.some.inj h
    rw [← hc, h2]

/-- No call changes the stored baud index or the transport mode. -/
theorem exec_keeps (call : Call) (e : Env) (c c2 : Controller) (w w2 : World)
    (h : exec call e c w = some (c2, w2)) :
    c2.uartBaudrateIndex = c.uartBaudrateIndex ∧ c2.commMode = c.commMode := by
  have hr := reads_ctrl c w e
  cases call with
  | begin =>
    rw [map_snd_ctrl _ c c2 w2 (begin_ctrl c w e) h]; exact ⟨rfl, rfl⟩
  | setLedCount n =>
    have h2 : (setLedCount c w e n).2 = (c2, w2) := Option.some.inj h
    have h3 : c2 = c := by rw [← setLedCount_ctrl c w e n, h2]
    rw [h3]; exact ⟨rfl, rfl⟩
  | setLedType t =>
    have h2 : (setLedType c t, w) = (c2, w2) := Option.some.inj h
    have h3 : c2 = setLedType c t := (congrArg Prod.fst h2).symm
    rw [h3]; exact ⟨rfl, rfl⟩
  | setLedColorData index r g b =>
    rw [map_snd_ctrl _ c c2 w2 (setLedColorData_ctrl c w e index r g b) h]; exact ⟨rfl, rfl⟩
  | setLedColorData32 index rgb =>
    rw [map_snd_ctrl _ c c2 w2 (setLedColorData_ctrl c w e index _ _ _) h]; exact ⟨rfl, rfl⟩
  | setLedColor index r g b =>
    rw [map_snd_ctrl _ c c2 w2 (setLedColor_ctrl c w e index r g b) h]; exact ⟨rfl, rfl⟩
  | setLedColor32 index rgb =>
    rw [map_snd_ctrl _ c c2 w2 (setLedColor_ctrl c w e index _ _ _) h]; exact ⟨rfl, rfl⟩
  | setAllLedsColorData r g b =>
    rw [map_snd_ctrl _ c c2 w2 (setAllLedsColorData_ctrl c w e r g b) h]; exact ⟨rfl, rfl⟩
  | setAllLedsColorData32 rgb =>
    rw [map_snd_ctrl _ c c2 w2 (setAllLedsColorData_ctrl c w e _ _ _) h]; exact ⟨rfl, rfl⟩
  | setAllLedsColor r g b =>
    rw [map_snd_ctrl _ c c2 w2 (setAllLedsColor_ctrl c w e r g b) h]; exact ⟨rfl, rfl⟩
  | setAllLedsColor32 rgb =>
    rw [map_snd_ctrl _ c c2 w2 (setAllLedsColor_ctrl c w e _ _ _) h]; exact ⟨rfl, rfl⟩
  | «show» =>
    have h2 : («show» c w e).2 = (c2, w2) := Option.some.inj h
    have h3 : c2 = c := by rw [← show_ctrl c w e, h2]
    rw [h3]; exact ⟨rfl, rfl⟩
  | getLedsCountFromController =>
    rw [map_const_ctrl _ _ c c2 w2 hr.1 h]; exact ⟨rfl, rfl⟩
  | getI2CAddress =>
    have h2 : (getI2CAddress c w e).2 = (c2, w2) := Option.some.inj h
    have h3 : c2 = c := by rw [← hr.2.1, h2]
    rw [h3]; exact ⟨rfl, rfl⟩
  | getUartBaudrate =>
    rw [map_const_ctrl _ _ c c2 w2 hr.2.2.1 h]; exact ⟨rfl, rfl⟩
  | setUartBaudrate _baudrate =>
    have h2 : (setUartBaudrate c w e _baudrate).2 = (c2, w2) := Option.some.inj h
    have h3 : c2 = c := by rw [← setUartBaudrate_ctrl c w e _baudrate, h2]
    rw [h3]; exact ⟨rfl, rfl⟩
  | setI2CNewAddress addr =>
    have h2 : (setI2CNewAddress c w e addr).2 = (c2, w2) := Option.some.inj h
    have h3 := setI2CNewAddress_keeps c w e addr
    rw [h2] at h3
    exact h3
  | getBrand =>
    rw [map_const_ctrl _ _ c c2 w2 hr.2.2.2.1 h]; exact ⟨rfl, rfl⟩
  | getFirmwareVersion =>
    rw [map_const_ctrl _ _ c c2 w2 hr.2.2.2.2 h]; exact ⟨rfl, rfl⟩
  | Wheel pos =>
    have h2 : (c, w) = (c2, w2) := Option.some.inj h
    have h3 : c2 = c := (congrArg Prod.fst h2).symm
    rw [h3]; exact ⟨rfl, rfl⟩

/-- No sequence of calls changes the stored baud index or the transport mode. -/
theorem run_keeps (calls : List (Call × Env)) :
    ∀ (c c2 : Controller) (w w2 : World), run calls c w = some (c2, w2) →
      c2.uartBaudrateIndex = c.uartBaudrateIndex ∧ c2.commMode = c.commMode := by
  induction calls with
  | nil =>
    intro c c2 w w2 h
    have h2 : (c, w) = (c2, w2) := Option.some.inj h
    have h3 : c2 = c := (congrArg Prod.fst h2).symm
    rw [h3]; exact ⟨rfl, rfl⟩
  | cons head rest ih =>
    intro c c2 w w2 h
    obtain ⟨call, e⟩ := head
    rw [run] at h
    cases hx : exec call e c w with
    | none => rw [hx] at h; cases h
    | some p =>
      obtain ⟨c1, w1⟩ := p
      rw [hx] at h
      have h1 := exec_keeps call e c c1 w w1 hx
      have h2 := ih c1 c2 w1 w2 h
      exact ⟨h2.1.trans h1.1, h2.2.trans h1.2⟩

/-! ## The frame and the acknowledgement -/

/-- C1: for every parameter block `{c0, d0, d1, d2, d3}` (and every controller, world, peer and
wait flavour), `uartWriteDataToControllerWithAck` performs on the serial link exactly a flush,
one write of the 8 bytes `[0xCC, c0, d0, d1, d2, d3, 0xDD, k]` with
`k = (0xCC + c0 + d0 + d1 + d2 + d3 + 0xDD) mod 256`, and the wait; the data bytes go out
unchanged, also when they are `0xCC` or `0xDD`. -/
theorem uartWrite_frame (c : Controller) (w : World) (e : Env) (c0 d0 d1 d2 d3 : Nat)
    (isShowLed : Bool) :
    (uartWriteDataToControllerWithAck c w e c0 d0 d1 d2 d3 isShowLed).2.trace =
        w.trace ++
          [Event.serialFlush,
           Event.serialWrite [0xCC, c0, d0, d1, d2, d3, 0xDD,
             (0xCC + c0 + d0 + d1 + d2 + d3 + 0xDD) % 256],
           ackWait c isShowLed] ∧
      (uartWriteDataToControllerWithAck c w e c0 0xCC 0xDD 0xCC 0xDD isShowLed).2.trace =
        w.trace ++
          [Event.serialFlush,
           Event.serialWrite [0xCC, c0, 0xCC, 0xDD, 0xCC, 0xDD, 0xDD,
             (0xCC + c0 + 0xCC + 0xDD + 0xCC + 0xDD + 0xDD) % 256],
           ackWait c isShowLed] := by
  constructor <;> rw [uartWrite_eq]

/-- The value returned by `uartWriteDataToControllerWithAck` in terms of the response. -/
theorem uartWrite_ret_iff (c : Controller) (w : World) (e : Env) (p0 p1 p2 p3 p4 : Nat)
    (isShowLed : Bool) (hb : ∀ b ∈ e.resp, b < 256) :
    (uartWriteDataToControllerWithAck c w e p0 p1 p2 p3 p4 isShowLed).1 = true ↔
      e.resp.getLast? = some 0x06 := by
  rw [uartWrite_eq]
  cases hl : e.resp.getLast? with
  | none => simp [UART_ACK_BYTE]
  | some b =>
    have hlt : b < 256 := hb b (List.mem_of_getLast?_eq_some hl)
    simp [UART_ACK_BYTE, Nat.mod_eq_of_lt hlt]

/-- C2: when the peer delivers the bytes `e.resp` during the wait,
`uartWriteDataToControllerWithAck` returns true exactly when `e.resp` is non-empty and its last
byte is `0x06`; what came before the last byte, and what was pending before the call, plays no
part, and an empty response gives false. -/
theorem uartWrite_ack_iff (c : Controller) (w : World) (e : Env) (p0 p1 p2 p3 p4 : Nat)
    (isShowLed : Bool) (hb : ∀ b ∈ e.resp, b < 256) :
    (uartWriteDataToControllerWithAck c w e p0 p1 p2 p3 p4 isShowLed).1 = true ↔
      (e.resp ≠ [] ∧ e.resp.getLast? = some 0x06) := by
  rw [uartWrite_ret_iff c w e p0 p1 p2 p3 p4 isShowLed hb]
  constructor
  · intro h
    exact ⟨List.ne_nil_of_mem (List.mem_of_getLast?_eq_some h), h⟩
  · exact fun h => h.2

/-- C2 at a concrete run: stale input `[0x06]`, response `[0x06, 0x15, 0x06]`. -/
theorem uartWrite_ack_iff_witness :
    (∀ b ∈ ({ resp := [0x06, 0x15, 0x06], wireErr := 0, wireData := [] } : Env).resp, b < 256) ∧
    ((uartWriteDataToControllerWithAck mem0 { rx := [0x06], trace := [] }
        { resp := [0x06, 0x15, 0x06], wireErr := 0, wireData := [] } 5 0 0 0 0 true).1 = true ↔
      (({ resp := [0x06, 0x15, 0x06], wireErr := 0, wireData := [] } : Env).resp ≠ [] ∧
        ({ resp := [0x06, 0x15, 0x06], wireErr := 0, wireData := [] } : Env).resp.getLast?
          = some 0x06)) :=
  ⟨by decide,
   uartWrite_ack_iff mem0 { rx := [0x06], trace := [] }
     { resp := [0x06, 0x15, 0x06], wireErr := 0, wireData := [] } 5 0 0 0 0 true (by decide)⟩

/-! ## Colour order -/

/-- C3: for each of the six `LED_TYPE` codes `t` and all `idx`, `r`, `g`, `b` there are slots
`s0, s1, s2` with `s[rOffset] = r`, `s[gOffset] = g`, `s[bOffset] = b` such that
`setLedColorData` / `setLedColor` send command `0x01` / `0x02` with payload `[idx, s0, s1, s2]`
and `setAllLedsColorData` / `setAllLedsColor` send command `0x03` / `0x04` with payload
`[s0, s1, s2, 0]` in the serial frame (on the register bus the same command byte and slots,
without the padding byte); with `TYPE_GRB`, `setLedColor(3, 10, 20, 30)` has the slots
`[20, 10, 30]`. -/
theorem colour_ops_wire (t : LED_TYPE) (c : Controller) (w : World) (e : Env)
    (idx r g b : Nat) :
    (∃ s0 s1 s2 : Nat,
      [s0, s1, s2][(setLedType c t).rOffset]? = some r ∧
      [s0, s1, s2][(setLedType c t).gOffset]? = some g ∧
      [s0, s1, s2][(setLedType c t).bOffset]? = some b ∧
      (setLedColorData (setLedType c t) w e idx r g b).map (fun x => x.2.2.trace) =
        some (w.trace ++
          if c.commMode = I2C_COMMUNICATION_MODE then
            [Event.wireTransmission c.I2C_Address [0x01, idx, s0, s1, s2] true]
          else
            [Event.serialFlush,
             Event.serialWrite [0xCC, 0x01, idx, s0, s1, s2, 0xDD,
               (0xCC + 0x01 + idx + s0 + s1 + s2 + 0xDD) % 256],
             ackWait (setLedType c t) false]) ∧
      (setLedColor (setLedType c t) w e idx r g b).map (fun x => x.2.2.trace) =
        some (w.trace ++
          if c.commMode = I2C_COMMUNICATION_MODE then
            [Event.wireTransmission c.I2C_Address [0x02, idx, s0, s1, s2] true]
          else
            [Event.serialFlush,
             Event.serialWrite [0xCC, 0x02, idx, s0, s1, s2, 0xDD,
               (0xCC + 0x02 + idx + s0 + s1 + s2 + 0xDD) % 256],
             ackWait (setLedType c t) true]) ∧
      (setAllLedsColorData (setLedType c t) w e r g b).map (fun x => x.2.2.trace) =
        some (w.trace ++
          if c.commMode = I2C_COMMUNICATION_MODE then
            [Event.wireTransmission c.I2C_Address [0x03, s0, s1, s2] true]
          else
            [Event.serialFlush,
             Event.serialWrite [0xCC, 0x03, s0, s1, s2, 0, 0xDD,
               (0xCC + 0x03 + s0 + s1 + s2 + 0 + 0xDD) % 256],
             ackWait (setLedType c t) false]) ∧
      (setAllLedsColor (setLedType c t) w e r g b).map (fun x => x.2.2.trace) =
        some (w.trace ++
          if c.commMode = I2C_COMMUNICATION_MODE then
            [Event.wireTransmission c.I2C_Address [0x04, s0, s1, s2] true]
          else
            [Event.serialFlush,
             Event.serialWrite [0xCC, 0x04, s0, s1, s2, 0, 0xDD,
               (0xCC + 0x04 + s0 + s1 + s2 + 0 + 0xDD) % 256],
             ackWait (setLedType c t) true])) ∧
    colourSlots (setLedType c LED_TYPE.TYPE_GRB) 10 20 30 = some (20, 10, 30) ∧
    (setLedColor (ctorSerial c 8 LED_TYPE.TYPE_GRB 115200) w e 3 10 20 30).map
        (fun x => x.2.2.trace) =
      some (w.trace ++
        [Event.serialFlush, Event.serialWrite [0xCC, 0x02, 3, 20, 10, 30, 0xDD, 0xEA],
         Event.delayMicroseconds 10600]) := by
  refine ⟨?_, rfl, ?_⟩
  · obtain ⟨s0, s1, s2, hs, hr, hg, hb⟩ := colourSlots_setLedType t c r g b
    exact ⟨s0, s1, s2, hr, hg, hb, colour_ops_trace (setLedType c t) w e idx r g b s0 s1 s2 hs⟩
  · have hs : colourSlots (ctorSerial c 8 LED_TYPE.TYPE_GRB 115200) 10 20 30
        = some (20, 10, 30) := rfl
    have hm := ctorSerial_not_I2C c 8 LED_TYPE.TYPE_GRB 115200
    have hw : ackWait (ctorSerial c 8 LED_TYPE.TYPE_GRB 115200) true
        = Event.delayMicroseconds 10600 := by
      simp [ackWait, ctorSerial_uartWaitAckTime]
    simp [setLedColor, hs, hm, uartWrite_eq, hw, REG_SET_LED_COLOR]

/-! ## Start-up -/

/-- C4, the claim fails as stated: a serial-mode controller constructed with LED count 8 sends
the frame of command `0x00` with payload `[8, 0, 0, 0]` and then waits 9000 microseconds, not
the 10600 microseconds of the long wait. -/
theorem begin_wait_counterexample :
    (begin (ctorSerial mem0 8 LED_TYPE.TYPE_GRB 115200) world0 envAck).map
        (fun x => x.2.2.trace) =
      some [Event.serialBegin 115200, Event.serialFlush,
            Event.serialWrite [0xCC, 0x00, 8, 0, 0, 0, 0xDD, 0xB1],
            Event.delayMicroseconds 9000] ∧
    (begin (ctorSerial mem0 8 LED_TYPE.TYPE_GRB 115200) world0 envAck).map
        (fun x => x.2.2.trace) ≠
      some [Event.serialBegin 115200, Event.serialFlush,
            Event.serialWrite [0xCC, 0x00, 8, 0, 0, 0, 0xDD, 0xB1],
            Event.delayMicroseconds (280 + 8 * 40 + 10000)] := by
  decide

/-- C4 as amended: for a serial-mode controller constructed with LED count `n ≤ 255`, `begin()`
returns; it opens the link at a rate of the table, sends one frame with command `0x00` and
payload `[n, 0, 0, 0]`, waits the fixed 9000 microseconds, leaves the controller as it was, and
returns true exactly when the last byte received during the wait is the ACK byte `0x06`. -/
theorem begin_serial (mem : Controller) (n : Nat) (t : LED_TYPE) (baud : Nat) (w : World)
    (e : Env) (hn : n ≤ 255) (hb : ∀ b ∈ e.resp, b < 256) :
    ∃ rate ack w2,
      rate ∈ _BAUDRATE ∧
      begin (ctorSerial mem n t baud) w e = some (ack, ctorSerial mem n t baud, w2) ∧
      w2.trace = w.trace ++
        [Event.serialBegin rate, Event.serialFlush,
         Event.serialWrite [0xCC, 0x00, n, 0, 0, 0, 0xDD,
           (0xCC + 0x00 + n + 0 + 0 + 0 + 0xDD) % 256],
         Event.delayMicroseconds 9000] ∧
      (ack = true ↔ e.resp.getLast? = some 0x06) := by
  obtain ⟨rate, hrate⟩ := ctorSerial_index_entry mem n t baud
  have hm := ctorSerial_not_I2C mem n t baud
  have hn2 : n % 256 = n := Nat.mod_eq_of_lt (by omega)
  refine ⟨rate,
    (uartWriteDataToControllerWithAck (ctorSerial mem n t baud)
      { w with trace := w.trace ++ [Event.serialBegin rate] } e REG_LEDS_COUNTS n 0 0 0 false).1,
    (uartWriteDataToControllerWithAck (ctorSerial mem n t baud)
      { w with trace := w.trace ++ [Event.serialBegin rate] } e REG_LEDS_COUNTS n 0 0 0 false).2,
    List.getElem?_mem hrate, ?_, ?_, ?_⟩
  · simp only [begin, if_neg hm, hrate, setLedCount, ctorSerial_ledCounts, hn2]
  · simp [uartWrite_eq, ackWait, REG_LEDS_COUNTS]
  · exact uartWrite_ret_iff _ _ e _ _ _ _ _ _ hb

/-- C4 as amended, at LED count 8 with a peer that answers ACK. -/
theorem begin_serial_witness :
    8 ≤ 255 ∧ (∀ b ∈ envAck.resp, b < 256) ∧
    ∃ rate ack w2,
      rate ∈ _BAUDRATE ∧
      begin (ctorSerial mem0 8 LED_TYPE.TYPE_GRB 115200) world0 envAck =
        some (ack, ctorSerial mem0 8 LED_TYPE.TYPE_GRB 115200, w2) ∧
      w2.trace = world0.trace ++
        [Event.serialBegin rate, Event.serialFlush,
         Event.serialWrite [0xCC, 0x00, 8, 0, 0, 0, 0xDD,
           (0xCC + 0x00 + 8 + 0 + 0 + 0 + 0xDD) % 256],
         Event.delayMicroseconds 9000] ∧
      (ack = true ↔ envAck.resp.getLast? = some 0x06) :=
  ⟨by decide, by decide,
   begin_serial mem0 8 LED_TYPE.TYPE_GRB 115200 world0 envAck (by decide) (by decide)⟩

/-! ## Address and baud rate -/

/-- C5: in both transport modes, the controller after `setI2CNewAddress(addr)` is the one
before with `I2C_Address` replaced by `addr` when the call returns true, and is unchanged in
every field when it returns false; the call returns true exactly when the bus write reports
error code 0 (register bus) or the frame is acknowledged (serial link). -/
theorem setI2CNewAddress_cache (c : Controller) (w : World) (e : Env) (addr : Nat) :
    (setI2CNewAddress c w e addr).2.1 =
        (if (setI2CNewAddress c w e addr).1 = true then { c with I2C_Address := addr } else c) ∧
      (setI2CNewAddress c w e addr).1 =
        (if c.commMode = I2C_COMMUNICATION_MODE then decide (e.wireErr = 0)
         else (uartWriteDataToControllerWithAck c w e 0xFD 0xAA 0xBB addr 0 false).1) := by
  unfold setI2CNewAddress
  by_cases hm : c.commMode = I2C_COMMUNICATION_MODE
  · by_cases he : e.wireErr = 0 <;> simp [hm, he, writeReg]
  · by_cases ha : (uartWriteDataToControllerWithAck c w e 0xFD 0xAA 0xBB addr 0 false).1 = true <;>
      simp [hm, ha, REG_SET_I2C_ADDRESS, SECRET_KEY_A, SECRET_KEY_B]

/-- C6, the claim fails as stated: on a serial-mode controller constructed at 115200,
`setUartBaudrate(9600)` is acknowledged and returns true, and `getUartBaudrate()` then returns
115200, not 9600. -/
theorem setUartBaudrate_get_counterexample :
    9600 ∈ _BAUDRATE ∧
    (setUartBaudrate (ctorSerial mem0 8 LED_TYPE.TYPE_GRB 115200) world0 envAck 9600).1 = true ∧
    (getUartBaudrate
        (setUartBaudrate (ctorSerial mem0 8 LED_TYPE.TYPE_GRB 115200) world0 envAck 9600).2.1
        (setUartBaudrate (ctorSerial mem0 8 LED_TYPE.TYPE_GRB 115200) world0 envAck 9600).2.2
        envAck).1 = some 115200 ∧
    (getUartBaudrate
        (setUartBaudrate (ctorSerial mem0 8 LED_TYPE.TYPE_GRB 115200) world0 envAck 9600).2.1
        (setUartBaudrate (ctorSerial mem0 8 LED_TYPE.TYPE_GRB 115200) world0 envAck 9600).2.2
        envAck).1 ≠ some 9600 := by
  decide

/-- C6 as amended: on a serial-mode controller constructed with baud rate `baud`,
`setUartBaudrate(rate)` changes no data member, whatever it returns, and a subsequent
`getUartBaudrate()` returns the construction-time rate: `baud` when `baud` is in the table and
115200 otherwise. -/
theorem setUartBaudrate_then_get (mem : Controller) (n : Nat) (t : LED_TYPE) (baud : Nat)
    (w : World) (e e2 : Env) (rate : Nat) :
    (setUartBaudrate (ctorSerial mem n t baud) w e rate).2.1 = ctorSerial mem n t baud ∧
    (getUartBaudrate
        (setUartBaudrate (ctorSerial mem n t baud) w e rate).2.1
        (setUartBaudrate (ctorSerial mem n t baud) w e rate).2.2 e2).1 =
      some (if baud ∈ _BAUDRATE then baud else 115200) := by
  refine ⟨setUartBaudrate_ctrl _ w e rate, ?_⟩
  rw [setUartBaudrate_ctrl]
  simp only [getUartBaudrate, if_neg (ctorSerial_not_I2C mem n t baud)]
  exact ctorSerial_rate mem n t baud

/-- C7: for a rate that is not an entry of the baud table, in both transport modes,
`setUartBaudrate(rate)` returns false, does nothing to either transport and leaves every data
member (the stored baud index among them) as it was. -/
theorem setUartBaudrate_unsupported (c : Controller) (w : World) (e : Env) (rate : Nat)
    (h : rate ∉ _BAUDRATE) :
    setUartBaudrate c w e rate = (false, c, w) := by
  unfold setUartBaudrate
  rw [baudScan_of_not_mem rate h]

/-- C7 at the rate 9601, on the register bus and on the serial link. -/
theorem setUartBaudrate_unsupported_witness :
    9601 ∉ _BAUDRATE ∧
    setUartBaudrate (ctorI2C mem0 0x20 8 LED_TYPE.TYPE_GRB) world0 envAck 9601 =
      (false, ctorI2C mem0 0x20 8 LED_TYPE.TYPE_GRB, world0) ∧
    setUartBaudrate (ctorSerial mem0 8 LED_TYPE.TYPE_GRB 9600) world0 envAck 9601 =
      (false, ctorSerial mem0 8 LED_TYPE.TYPE_GRB 9600, world0) :=
  ⟨by decide,
   setUartBaudrate_unsupported (ctorI2C mem0 0x20 8 LED_TYPE.TYPE_GRB) world0 envAck 9601
     (by decide),
   setUartBaudrate_unsupported (ctorSerial mem0 8 LED_TYPE.TYPE_GRB 9600) world0 envAck 9601
     (by decide)⟩

/-- C8: for a rate of the baud table, `setUartBaudrate(rate)` sends command `0xFC` with payload
`[0xAA, 0xBB, i, 0]` in the serial frame (`[0xAA, 0xBB, i]` on the register bus), where `i` is
the first index with `_BAUDRATE[i] == rate`, so that `_BAUDRATE[i]` gives back `rate`; for
115200 the index sent is 0, and the entries at index 0 and at index 9 are both 115200. -/
theorem setUartBaudrate_index (c : Controller) (w : World) (e : Env) (rate : Nat)
    (h : rate ∈ _BAUDRATE) :
    (∃ i, i < 13 ∧ _BAUDRATE[i]? = some rate ∧ (∀ m, m < i → _BAUDRATE[m]? ≠ some rate) ∧
      (setUartBaudrate c w e rate).2.2.trace =
        w.trace ++
          (if c.commMode = I2C_COMMUNICATION_MODE then
            [Event.wireTransmission c.I2C_Address [0xFC, 0xAA, 0xBB, i] true]
          else
            [Event.serialFlush,
             Event.serialWrite [0xCC, 0xFC, 0xAA, 0xBB, i, 0, 0xDD,
               (0xCC + 0xFC + 0xAA + 0xBB + i + 0 + 0xDD) % 256],
             Event.delayMicroseconds 9000])) ∧
    (setUartBaudrate c w e 115200).2.2.trace =
        w.trace ++
          (if c.commMode = I2C_COMMUNICATION_MODE then
            [Event.wireTransmission c.I2C_Address [0xFC, 0xAA, 0xBB, 0] true]
          else
            [Event.serialFlush,
             Event.serialWrite [0xCC, 0xFC, 0xAA, 0xBB, 0, 0, 0xDD, 0x0A],
             Event.delayMicroseconds 9000]) ∧
    _BAUDRATE[0]? = some 115200 ∧ _BAUDRATE[9]? = some 115200 := by
  refine ⟨?_, ?_, rfl, rfl⟩
  · obtain ⟨i, hs⟩ := baudScan_of_mem rate h
    obtain ⟨_, h2, h3, h4⟩ := baudScan_some rate 13 0 i hs
    exact ⟨i, by omega, h3, fun m hm => h4 m (Nat.zero_le _) hm,
      setUartBaudrate_trace c w e rate i hs⟩
  · exact setUartBaudrate_trace c w e 115200 0 rfl

/-- C8 at the rate 9600 on a serial-mode controller. -/
theorem setUartBaudrate_index_witness :
    9600 ∈ _BAUDRATE ∧
    ((∃ i, i < 13 ∧ _BAUDRATE[i]? = some 9600 ∧ (∀ m, m < i → _BAUDRATE[m]? ≠ some 9600) ∧
      (setUartBaudrate (ctorSerial mem0 8 LED_TYPE.TYPE_GRB 115200) world0 envAck
          9600).2.2.trace =
        world0.trace ++
          (if (ctorSerial mem0 8 LED_TYPE.TYPE_GRB 115200).commMode = I2C_COMMUNICATION_MODE then
            [Event.wireTransmission (ctorSerial mem0 8 LED_TYPE.TYPE_GRB 115200).I2C_Address
              [0xFC, 0xAA, 0xBB, i] true]
          else
            [Event.serialFlush,
             Event.serialWrite [0xCC, 0xFC, 0xAA, 0xBB, i, 0, 0xDD,
               (0xCC + 0xFC + 0xAA + 0xBB + i + 0 + 0xDD) % 256],
             Event.delayMicroseconds 9000])) ∧
    (setUartBaudrate (ctorSerial mem0 8 LED_TYPE.TYPE_GRB 115200) world0 envAck
          115200).2.2.trace =
        world0.trace ++
          (if (ctorSerial mem0 8 LED_TYPE.TYPE_GRB 115200).commMode = I2C_COMMUNICATION_MODE then
            [Event.wireTransmission (ctorSerial mem0 8 LED_TYPE.TYPE_GRB 115200).I2C_Address
              [0xFC, 0xAA, 0xBB, 0] true]
          else
            [Event.serialFlush,
             Event.serialWrite [0xCC, 0xFC, 0xAA, 0xBB, 0, 0, 0xDD, 0x0A],
             Event.delayMicroseconds 9000]) ∧
    _BAUDRATE[0]? = some 115200 ∧ _BAUDRATE[9]? = some 115200) :=
  ⟨by decide,
   setUartBaudrate_index (ctorSerial mem0 8 LED_TYPE.TYPE_GRB 115200) world0 envAck 9600
     (by decide)⟩

/-! ## The wait before the acknowledgement is read -/

/-- C9, the claim fails as stated: on a serial-mode controller constructed with LED count 153,
`show()` waits `delay(17)`, that is 17 milliseconds, between the frame and the read, not
`280 + 153 * 40 + 10000 = 16400` microseconds. -/
theorem show_wait_counterexample :
    («show» (ctorSerial mem0 153 LED_TYPE.TYPE_GRB 115200) world0 envAck).2.2.trace =
      [Event.serialFlush, Event.serialWrite [0xCC, 0x05, 0, 0, 0, 0, 0xDD, 0xAE],
       Event.delay 17] ∧
    («show» (ctorSerial mem0 153 LED_TYPE.TYPE_GRB 115200) world0 envAck).2.2.trace ≠
      [Event.serialFlush, Event.serialWrite [0xCC, 0x05, 0, 0, 0, 0, 0xDD, 0xAE],
       Event.delayMicroseconds (280 + 153 * 40 + 10000)] := by
  decide

/-- C9 as amended: on a serial-mode controller constructed with LED count `n ≤ 1381`, the
value `T = 280 + n * 40 + 10000` stays below 65536 (so it is the same in 16-bit and in wider
`int` arithmetic), the Show operations (`setLedColor`, `setAllLedsColor`, `show`) wait
`delayMicroseconds(T)` between the frame and the read when `T ≤ 16383` and
`delay(T / 1000 + 1)` milliseconds otherwise, and the Buffered operations (`setLedColorData`,
`setAllLedsColorData`) wait `delayMicroseconds(9000)`. -/
theorem serial_wait_by_operation (mem : Controller) (n : Nat) (t : LED_TYPE) (baud : Nat)
    (w : World) (e : Env) (idx r g b : Nat) (hn : n ≤ 1381) :
    (280 + n * 40 + 10000) % 65536 = 280 + n * 40 + 10000 ∧
    (ctorSerial mem n t baud).uartWaitAckTime = (280 + n * 40 + 10000) % 65536 ∧
    (∃ f, (setLedColor (ctorSerial mem n t baud) w e idx r g b).map (fun x => x.2.2.trace) =
      some (w.trace ++ [Event.serialFlush, Event.serialWrite f,
        if 280 + n * 40 + 10000 ≤ 16383 then Event.delayMicroseconds (280 + n * 40 + 10000)
        else Event.delay ((280 + n * 40 + 10000) / 1000 + 1)])) ∧
    (∃ f, (setAllLedsColor (ctorSerial mem n t baud) w e r g b).map (fun x => x.2.2.trace) =
      some (w.trace ++ [Event.serialFlush, Event.serialWrite f,
        if 280 + n * 40 + 10000 ≤ 16383 then Event.delayMicroseconds (280 + n * 40 + 10000)
        else Event.delay ((280 + n * 40 + 10000) / 1000 + 1)])) ∧
    (∃ f, («show» (ctorSerial mem n t baud) w e).2.2.trace =
      w.trace ++ [Event.serialFlush, Event.serialWrite f,
        if 280 + n * 40 + 10000 ≤ 16383 then Event.delayMicroseconds (280 + n * 40 + 10000)
        else Event.delay ((280 + n * 40 + 10000) / 1000 + 1)]) ∧
    (∃ f, (setLedColorData (ctorSerial mem n t baud) w e idx r g b).map
        (fun x => x.2.2.trace) =
      some (w.trace ++ [Event.serialFlush, Event.serialWrite f,
        Event.delayMicroseconds 9000])) ∧
    (∃ f, (setAllLedsColorData (ctorSerial mem n t baud) w e r g b).map
        (fun x => x.2.2.trace) =
      some (w.trace ++ [Event.serialFlush, Event.serialWrite f,
        Event.delayMicroseconds 9000])) := by
  have hm := ctorSerial_not_I2C mem n t baud
  obtain ⟨s0, s1, s2, hs, _, _, _⟩ :=
    colourSlots_setLedType t (ctorSerial mem n t baud) r g b
  rw [← ctorSerial_eq_setLedType] at hs
  obtain ⟨h1, h2, h3, h4⟩ :=
    colour_ops_trace (ctorSerial mem n t baud) w e idx r g b s0 s1 s2 hs
  have h5 := show_trace (ctorSerial mem n t baud) w e
  rw [if_neg hm] at h1 h2 h3 h4 h5
  rw [ackWait_ctorSerial] at h2 h4 h5
  have hT : (280 + n * 40 + 10000) % 65536 = 280 + n * 40 + 10000 :=
    Nat.mod_eq_of_lt (by omega)
  exact ⟨hT, (ctorSerial_uartWaitAckTime mem n t baud).trans hT.symm,
    ⟨_, h2⟩, ⟨_, h4⟩, ⟨_, h5⟩, ⟨_, h1⟩, ⟨_, h3⟩⟩

/-- C9 as amended, at LED count 200 (`T = 18280`, so the Show operations wait `delay(19)`)
with colour (10, 20, 30) at index 3. -/
theorem serial_wait_by_operation_witness :
    200 ≤ 1381 ∧
    ((280 + 200 * 40 + 10000) % 65536 = 280 + 200 * 40 + 10000 ∧
    (ctorSerial mem0 200 LED_TYPE.TYPE_GRB 115200).uartWaitAckTime =
      (280 + 200 * 40 + 10000) % 65536 ∧
    (∃ f, (setLedColor (ctorSerial mem0 200 LED_TYPE.TYPE_GRB 115200) world0 envAck
        3 10 20 30).map (fun x => x.2.2.trace) =
      some (world0.trace ++ [Event.serialFlush, Event.serialWrite f,
        if 280 + 200 * 40 + 10000 ≤ 16383 then Event.delayMicroseconds (280 + 200 * 40 + 10000)
        else Event.delay ((280 + 200 * 40 + 10000) / 1000 + 1)])) ∧
    (∃ f, (setAllLedsColor (ctorSerial mem0 200 LED_TYPE.TYPE_GRB 115200) world0 envAck
        10 20 30).map (fun x => x.2.2.trace) =
      some (world0.trace ++ [Event.serialFlush, Event.serialWrite f,
        if 280 + 200 * 40 + 10000 ≤ 16383 then Event.delayMicroseconds (280 + 200 * 40 + 10000)
        else Event.delay ((280 + 200 * 40 + 10000) / 1000 + 1)])) ∧
    (∃ f, («show» (ctorSerial mem0 200 LED_TYPE.TYPE_GRB 115200) world0 envAck).2.2.trace =
      world0.trace ++ [Event.serialFlush, Event.serialWrite f,
        if 280 + 200 * 40 + 10000 ≤ 16383 then Event.delayMicroseconds (280 + 200 * 40 + 10000)
        else Event.delay ((280 + 200 * 40 + 10000) / 1000 + 1)]) ∧
    (∃ f, (setLedColorData (ctorSerial mem0 200 LED_TYPE.TYPE_GRB 115200) world0 envAck
        3 10 20 30).map (fun x => x.2.2.trace) =
      some (world0.trace ++ [Event.serialFlush, Event.serialWrite f,
        Event.delayMicroseconds 9000])) ∧
    (∃ f, (setAllLedsColorData (ctorSerial mem0 200 LED_TYPE.TYPE_GRB 115200) world0 envAck
        10 20 30).map (fun x => x.2.2.trace) =
      some (world0.trace ++ [Event.serialFlush, Event.serialWrite f,
        Event.delayMicroseconds 9000]))) :=
  ⟨by decide,
   serial_wait_by_operation mem0 200 LED_TYPE.TYPE_GRB 115200 world0 envAck 3 10 20 30
     (by decide)⟩

/-- C10, the claim fails as stated: on a serial-mode controller constructed with LED count 8,
`setI2CNewAddress(0x30)` and `setUartBaudrate(9600)` wait `delayMicroseconds(9000)` between
the frame and the read, not the `280 + 8 * 40 + 10000 = 10600` microseconds of the long wait. -/
theorem privileged_wait_counterexample :
    (setI2CNewAddress (ctorSerial mem0 8 LED_TYPE.TYPE_GRB 115200) world0 envAck
        0x30).2.2.trace =
      [Event.serialFlush, Event.serialWrite [0xCC, 0xFD, 0xAA, 0xBB, 0x30, 0, 0xDD, 0x3B],
       Event.delayMicroseconds 9000] ∧
    (setI2CNewAddress (ctorSerial mem0 8 LED_TYPE.TYPE_GRB 115200) world0 envAck
        0x30).2.2.trace ≠
      [Event.serialFlush, Event.serialWrite [0xCC, 0xFD, 0xAA, 0xBB, 0x30, 0, 0xDD, 0x3B],
       Event.delayMicroseconds (280 + 8 * 40 + 10000)] ∧
    9600 ∈ _BAUDRATE ∧
    (setUartBaudrate (ctorSerial mem0 8 LED_TYPE.TYPE_GRB 115200) world0 envAck
        9600).2.2.trace =
      [Event.serialFlush, Event.serialWrite [0xCC, 0xFC, 0xAA, 0xBB, 4, 0, 0xDD, 0x0E],
       Event.delayMicroseconds 9000] ∧
    (setUartBaudrate (ctorSerial mem0 8 LED_TYPE.TYPE_GRB 115200) world0 envAck
        9600).2.2.trace ≠
      [Event.serialFlush, Event.serialWrite [0xCC, 0xFC, 0xAA, 0xBB, 4, 0, 0xDD, 0x0E],
       Event.delayMicroseconds (280 + 8 * 40 + 10000)] := by
  decide

/-- C10 as amended: on a serial-mode controller, whatever LED count `n` it was constructed
with, `setI2CNewAddress` and `setUartBaudrate` with a rate of the table send their frame and
then wait the fixed `delayMicroseconds(9000)` before the acknowledgement is read. -/
theorem privileged_wait_fixed (mem : Controller) (n : Nat) (t : LED_TYPE) (baud : Nat)
    (w : World) (e : Env) (addr rate : Nat) (h : rate ∈ _BAUDRATE) :
    (∃ f, (setI2CNewAddress (ctorSerial mem n t baud) w e addr).2.2.trace =
      w.trace ++ [Event.serialFlush, Event.serialWrite f, Event.delayMicroseconds 9000]) ∧
    (∃ f, (setUartBaudrate (ctorSerial mem n t baud) w e rate).2.2.trace =
      w.trace ++ [Event.serialFlush, Event.serialWrite f, Event.delayMicroseconds 9000]) := by
  have hm := ctorSerial_not_I2C mem n t baud
  obtain ⟨i, hs⟩ := baudScan_of_mem rate h
  have h1 := setI2CNewAddress_trace (ctorSerial mem n t baud) w e addr
  have h2 := setUartBaudrate_trace (ctorSerial mem n t baud) w e rate i hs
  rw [if_neg hm] at h1 h2
  exact ⟨⟨_, h1⟩, ⟨_, h2⟩⟩

/-- C10 as amended, at LED count 200 (long wait `delay(19)`) and rate 9600. -/
theorem privileged_wait_fixed_witness :
    9600 ∈ _BAUDRATE ∧
    (∃ f, (setI2CNewAddress (ctorSerial mem0 200 LED_TYPE.TYPE_GRB 115200) world0 envAck
        0x30).2.2.trace =
      world0.trace ++ [Event.serialFlush, Event.serialWrite f, Event.delayMicroseconds 9000]) ∧
    (∃ f, (setUartBaudrate (ctorSerial mem0 200 LED_TYPE.TYPE_GRB 115200) world0 envAck
        9600).2.2.trace =
      world0.trace ++ [Event.serialFlush, Event.serialWrite f, Event.delayMicroseconds 9000]) :=
  ⟨by decide,
   privileged_wait_fixed mem0 200 LED_TYPE.TYPE_GRB 115200 world0 envAck 0x30 9600 (by decide)⟩

/-! ## The colour wheel -/

/-- C11: for every byte `pos`, with `w = pos mod 255`, `Wheel(pos)` is the packed value
`R * 65536 + G * 256 + B` where `(R, G, B)` is `(255 - 3w, 3w, 0)` if `w < 85`,
`(0, 255 - 3(w - 85), 3(w - 85))` if `85 ≤ w < 170` and `(3(w - 170), 0, 255 - 3(w - 170))`
otherwise; each channel is at most 255 (the channels add up to 255, so no subtraction goes
below zero) and the result is below `2 ^ 24`. -/
theorem Wheel_formula (pos : Nat) (h : pos < 256) :
    ∃ R G B : Nat,
      (R, G, B) =
        (if pos % 255 < 85 then (255 - 3 * (pos % 255), 3 * (pos % 255), 0)
         else if pos % 255 < 170 then (0, 255 - 3 * (pos % 255 - 85), 3 * (pos % 255 - 85))
         else (3 * (pos % 255 - 170), 0, 255 - 3 * (pos % 255 - 170))) ∧
      R ≤ 255 ∧ G ≤ 255 ∧ B ≤ 255 ∧ R + G + B = 255 ∧
      Wheel pos = R * 65536 + G * 256 + B ∧ Wheel pos < 2 ^ 24 := by
  interval_cases pos <;>
    exact ⟨_, _, _, rfl, by decide, by decide, by decide, by decide, by decide, by decide⟩

/-- C11 at `pos = 100`: the second segment, `(R, G, B) = (0, 210, 45)`. -/
theorem Wheel_formula_witness :
    100 < 256 ∧
    ∃ R G B : Nat,
      (R, G, B) =
        (if 100 % 255 < 85 then (255 - 3 * (100 % 255), 3 * (100 % 255), 0)
         else if 100 % 255 < 170 then (0, 255 - 3 * (100 % 255 - 85), 3 * (100 % 255 - 85))
         else (3 * (100 % 255 - 170), 0, 255 - 3 * (100 % 255 - 170))) ∧
      R ≤ 255 ∧ G ≤ 255 ∧ B ≤ 255 ∧ R + G + B = 255 ∧
      Wheel 100 = R * 65536 + G * 256 + B ∧ Wheel 100 < 2 ^ 24 :=
  ⟨by decide, Wheel_formula 100 (by decide)⟩

/-- C12: `Wheel(0) == Wheel(255)` (both pure red), `Wheel(85)` is pure green `0x00FF00` and
`Wheel(170)` is pure blue `0x0000FF`: in each, one channel is 255 and the others are 0. -/
theorem Wheel_boundaries :
    Wheel 0 = Wheel 255 ∧
    Wheel 0 = 255 * 65536 + 0 * 256 + 0 ∧
    Wheel 85 = 0x00FF00 ∧ Wheel 85 = 0 * 65536 + 255 * 256 + 0 ∧
    Wheel 170 = 0x0000FF ∧ Wheel 170 = 0 * 65536 + 0 * 256 + 255 := by
  decide

/-! ## Colour order and LED count -/

/-- C13: for each of the six type codes the slot indices `(rOffset, gOffset, bOffset)` that
`setLedType` stores are a permutation of `0, 1, 2`, and the channel named first / second /
third in the name of the type gets slot 0 / 1 / 2. -/
theorem setLedType_offsets (c : Controller) :
    (∀ t : LED_TYPE,
      List.Perm [(setLedType c t).rOffset, (setLedType c t).gOffset, (setLedType c t).bOffset]
        [0, 1, 2]) ∧
    ((setLedType c LED_TYPE.TYPE_RGB).rOffset = 0 ∧ (setLedType c LED_TYPE.TYPE_RGB).gOffset = 1 ∧
      (setLedType c LED_TYPE.TYPE_RGB).bOffset = 2) ∧
    ((setLedType c LED_TYPE.TYPE_RBG).rOffset = 0 ∧ (setLedType c LED_TYPE.TYPE_RBG).bOffset = 1 ∧
      (setLedType c LED_TYPE.TYPE_RBG).gOffset = 2) ∧
    ((setLedType c LED_TYPE.TYPE_GRB).gOffset = 0 ∧ (setLedType c LED_TYPE.TYPE_GRB).rOffset = 1 ∧
      (setLedType c LED_TYPE.TYPE_GRB).bOffset = 2) ∧
    ((setLedType c LED_TYPE.TYPE_GBR).gOffset = 0 ∧ (setLedType c LED_TYPE.TYPE_GBR).bOffset = 1 ∧
      (setLedType c LED_TYPE.TYPE_GBR).rOffset = 2) ∧
    ((setLedType c LED_TYPE.TYPE_BRG).bOffset = 0 ∧ (setLedType c LED_TYPE.TYPE_BRG).rOffset = 1 ∧
      (setLedType c LED_TYPE.TYPE_BRG).gOffset = 2) ∧
    ((setLedType c LED_TYPE.TYPE_BGR).bOffset = 0 ∧ (setLedType c LED_TYPE.TYPE_BGR).gOffset = 1 ∧
      (setLedType c LED_TYPE.TYPE_BGR).rOffset = 2) := by
  refine ⟨fun t => ?_, ⟨rfl, rfl, rfl⟩, ⟨rfl, rfl, rfl⟩, ⟨rfl, rfl, rfl⟩, ⟨rfl, rfl, rfl⟩,
    ⟨rfl, rfl, rfl⟩, ⟨rfl, rfl, rfl⟩⟩
  cases t
  · exact List.Perm.refl _
  · show List.Perm [0, 2, 1] [0, 1, 2]
    decide
  · show List.Perm [1, 0, 2] [0, 1, 2]
    decide
  · show List.Perm [2, 0, 1] [0, 1, 2]
    decide
  · show List.Perm [1, 2, 0] [0, 1, 2]
    decide
  · show List.Perm [2, 1, 0] [0, 1, 2]
    decide

/-- C14: for every count `n`, `setLedCount(n)` sends command `0x00` with the low byte of `n`
only: the payload `[n mod 256, 0, 0, 0]` in the serial frame and the single byte `n mod 256`
on the register bus; `setLedCount(n)` and `setLedCount(n mod 256)` do the same in every
respect. -/
theorem setLedCount_low_byte (c : Controller) (w : World) (e : Env) (n : Nat) :
    (setLedCount c w e n).2.2.trace =
      w.trace ++
        (if c.commMode = I2C_COMMUNICATION_MODE then
          [Event.wireTransmission c.I2C_Address [0x00, n % 256] true]
        else
          [Event.serialFlush,
           Event.serialWrite [0xCC, 0x00, n % 256, 0, 0, 0, 0xDD,
             (0xCC + 0x00 + n % 256 + 0 + 0 + 0 + 0xDD) % 256],
           Event.delayMicroseconds 9000]) ∧
    setLedCount c w e n = setLedCount c w e (n % 256) ∧
    (setLedCount c w e 0x0108).2.2.trace = (setLedCount c w e 0x08).2.2.trace := by
  refine ⟨setLedCount_trace c w e n, ?_, ?_⟩
  · simp [setLedCount]
  · rw [setLedCount_trace, setLedCount_trace]

/-- C15, the claim fails as stated: on a controller constructed with LED count 8, in either
transport mode, `setLedCount(16)` succeeds and the stored LED count is still 8. -/
theorem setLedCount_stored_counterexample :
    (setLedCount (ctorSerial mem0 8 LED_TYPE.TYPE_GRB 115200) world0 envAck 16).1 = true ∧
    (setLedCount (ctorSerial mem0 8 LED_TYPE.TYPE_GRB 115200) world0 envAck 16).2.1.ledCounts
      = 8 ∧
    (setLedCount (ctorSerial mem0 8 LED_TYPE.TYPE_GRB 115200) world0 envAck 16).2.1.ledCounts
      ≠ 16 ∧
    (setLedCount (ctorI2C mem0 0x20 8 LED_TYPE.TYPE_GRB) world0 envAck 16).1 = true ∧
    (setLedCount (ctorI2C mem0 0x20 8 LED_TYPE.TYPE_GRB) world0 envAck 16).2.1.ledCounts
      ≠ 16 := by
  decide

/-- C15 as amended: `setLedCount(n)` changes no data member, whether it succeeds or not; after
it the stored LED count (and the wait derived from it) is the one the constructor stored. -/
theorem setLedCount_keeps_config (c mem : Controller) (w : World) (e : Env)
    (n n0 _address baud : Nat) (t : LED_TYPE) :
    (setLedCount c w e n).2.1 = c ∧
    (setLedCount (ctorSerial mem n0 t baud) w e n).2.1.ledCounts = n0 ∧
    (setLedCount (ctorSerial mem n0 t baud) w e n).2.1.uartWaitAckTime
      = 280 + n0 * 40 + 10000 ∧
    (setLedCount (ctorI2C mem _address n0 t) w e n).2.1.ledCounts = n0 := by
  refine ⟨setLedCount_ctrl c w e n, ?_, ?_, ?_⟩ <;> rw [setLedCount_ctrl] <;> rfl

/-! ## Stale input and string reads -/

/-- C16: what is pending in the serial input buffer at the moment of the call plays no part:
for any two pending contents `rx1`, `rx2` and the same response, the call of
`uartWriteDataToControllerWithAck` has the same result in every respect (frame sent, value
returned, input left); a stale `0x06` followed by no response gives false. -/
theorem stale_input_ignored (c : Controller) (tr : List Event) (rx1 rx2 : List Nat) (e : Env)
    (p0 p1 p2 p3 p4 : Nat) (isShowLed : Bool) :
    uartWriteDataToControllerWithAck c { rx := rx1, trace := tr } e p0 p1 p2 p3 p4 isShowLed =
      uartWriteDataToControllerWithAck c { rx := rx2, trace := tr } e p0 p1 p2 p3 p4
        isShowLed ∧
    (uartWriteDataToControllerWithAck c { rx := [0x06], trace := tr }
      { resp := [], wireErr := e.wireErr, wireData := e.wireData }
      p0 p1 p2 p3 p4 isShowLed).1 = false := by
  constructor
  · rw [uartWrite_eq, uartWrite_eq]
  · rw [uartWrite_eq]
    rfl

/-- C17: in serial mode, when the peer has delivered the bytes `e.resp` (`k` of them) by the
end of the 10 ms wait, the array of `getBrand` holds the first `min(k, 9)` of them in arrival
order from index 0 on and zeros after, and the bytes from the 10th on stay in the serial
input; `getFirmwareVersion` does the same with 16; the strings returned are built from these
arrays. -/
theorem string_reads_accumulate (c : Controller) (w : World) (e : Env)
    (hm : c.commMode ≠ I2C_COMMUNICATION_MODE) (hb : ∀ b ∈ e.resp, b < 256) :
    (getBrandBuffer w e).1 = e.resp.take 9 ++ List.replicate (9 - min e.resp.length 9) 0 ∧
    (getBrandBuffer w e).2.rx = e.resp.drop 9 ∧
    getBrand c w e = (cString (getBrandBuffer w e).1, c, (getBrandBuffer w e).2) ∧
    (getFirmwareVersionBuffer w e).1 =
      e.resp.take 16 ++ List.replicate (16 - min e.resp.length 16) 0 ∧
    (getFirmwareVersionBuffer w e).2.rx = e.resp.drop 16 ∧
    getFirmwareVersion c w e =
      (cString (getFirmwareVersionBuffer w e).1, c, (getFirmwareVersionBuffer w e).2) := by
  obtain ⟨h1, h2⟩ := readChars_uartRequest 9 REG_GET_BRAND w e hb
  obtain ⟨h3, h4⟩ := readChars_uartRequest 16 REG_GET_FIRMWARE_VERSION w e hb
  refine ⟨h1, h2, ?_, h3, h4, ?_⟩
  · simp only [getBrand, if_neg hm]
  · simp only [getFirmwareVersion, if_neg hm]

/-- C17 at a response of 11 bytes after stale input: 9 bytes are stored, 2 stay unread. -/
theorem string_reads_accumulate_witness :
    (ctorSerial mem0 8 LED_TYPE.TYPE_GRB 115200).commMode ≠ I2C_COMMUNICATION_MODE ∧
    (getBrandBuffer { rx := [1, 2], trace := [] }
      { resp := [70, 82, 69, 69, 78, 79, 86, 69, 0, 3, 4], wireErr := 0, wireData := [] }).1
      = [70, 82, 69, 69, 78, 79, 86, 69, 0] ∧
    (getBrandBuffer { rx := [1, 2], trace := [] }
      { resp := [70, 82, 69, 69, 78, 79, 86, 69, 0, 3, 4], wireErr := 0, wireData := [] }).2.rx
      = [3, 4] ∧
    (getFirmwareVersionBuffer { rx := [1, 2], trace := [] }
      { resp := [70, 82, 69, 69, 78, 79, 86, 69, 0, 3, 4], wireErr := 0, wireData := [] }).1
      = [70, 82, 69, 69, 78, 79, 86, 69, 0, 3, 4, 0, 0, 0, 0, 0] :=
  have h := string_reads_accumulate (ctorSerial mem0 8 LED_TYPE.TYPE_GRB 115200)
    { rx := [1, 2], trace := [] }
    { resp := [70, 82, 69, 69, 78, 79, 86, 69, 0, 3, 4], wireErr := 0, wireData := [] }
    (by decide) (by decide)
  ⟨by decide, h.1, h.2.1, h.2.2.2.1⟩

/-! ## The two transports -/

/-- C18: the two transports encode every write-style operation alike. For a controller on
the register bus and one on the serial link with the same colour order (any of the six
types), and for all arguments, each of `setLedCount`, `setLedColorData`, `setLedColor`,
`setAllLedsColorData`, `setAllLedsColor`, `show`, `setUartBaudrate` (rate of the table) and
`setI2CNewAddress` sends on the bus a command byte and a payload, and on the serial link a
frame with the same command id whose four data bytes are that payload padded on the right
with zeros. -/
theorem transports_agree (c cB cS : Controller) (t : LED_TYPE) (w : World) (eB eS : Env)
    (n idx r g b addr rate : Nat)
    (hB : cB = setLedType { c with commMode := I2C_COMMUNICATION_MODE } t)
    (hS : cS = setLedType { c with commMode := UART_COMMUNICATION_MODE } t)
    (hr : rate ∈ _BAUDRATE) :
    sameEncoding w.trace (setLedCount cB w eB n).2.2.trace (setLedCount cS w eS n).2.2.trace ∧
    (∃ tb ts,
      (setLedColorData cB w eB idx r g b).map (fun x => x.2.2.trace) = some tb ∧
      (setLedColorData cS w eS idx r g b).map (fun x => x.2.2.trace) = some ts ∧
      sameEncoding w.trace tb ts) ∧
    (∃ tb ts,
      (setLedColor cB w eB idx r g b).map (fun x => x.2.2.trace) = some tb ∧
      (setLedColor cS w eS idx r g b).map (fun x => x.2.2.trace) = some ts ∧
      sameEncoding w.trace tb ts) ∧
    (∃ tb ts,
      (setAllLedsColorData cB w eB r g b).map (fun x => x.2.2.trace) = some tb ∧
      (setAllLedsColorData cS w eS r g b).map (fun x => x.2.2.trace) = some ts ∧
      sameEncoding w.trace tb ts) ∧
    (∃ tb ts,
      (setAllLedsColor cB w eB r g b).map (fun x => x.2.2.trace) = some tb ∧
      (setAllLedsColor cS w eS r g b).map (fun x => x.2.2.trace) = some ts ∧
      sameEncoding w.trace tb ts) ∧
    sameEncoding w.trace («show» cB w eB).2.2.trace («show» cS w eS).2.2.trace ∧
    sameEncoding w.trace (setUartBaudrate cB w eB rate).2.2.trace
      (setUartBaudrate cS w eS rate).2.2.trace ∧
    sameEncoding w.trace (setI2CNewAddress cB w eB addr).2.2.trace
      (setI2CNewAddress cS w eS addr).2.2.trace := by
  have hmB : cB.commMode = I2C_COMMUNICATION_MODE := by rw [hB]; rfl
  have hmS : cS.commMode ≠ I2C_COMMUNICATION_MODE := by
    rw [hS]
    show UART_COMMUNICATION_MODE ≠ I2C_COMMUNICATION_MODE
    decide
  obtain ⟨s0, s1, s2, hsB, _, _, _⟩ :=
    colourSlots_setLedType t { c with commMode := I2C_COMMUNICATION_MODE } r g b
  have hsS : colourSlots cS r g b = some (s0, s1, s2) := by rw [hS]; exact hsB
  rw [← hB] at hsB
  obtain ⟨b1, b2, b3, b4⟩ := colour_ops_trace cB w eB idx r g b s0 s1 s2 hsB
  obtain ⟨u1, u2, u3, u4⟩ := colour_ops_trace cS w eS idx r g b s0 s1 s2 hsS
  obtain ⟨i, hi⟩ := baudScan_of_mem rate hr
  have b5 := setLedCount_trace cB w eB n
  have u5 := setLedCount_trace cS w eS n
  have b6 := show_trace cB w eB
  have u6 := show_trace cS w eS
  have b7 := setUartBaudrate_trace cB w eB rate i hi
  have u7 := setUartBaudrate_trace cS w eS rate i hi
  have b8 := setI2CNewAddress_trace cB w eB addr
  have u8 := setI2CNewAddress_trace cS w eS addr
  rw [if_pos hmB] at b1 b2 b3 b4 b5 b6 b7 b8
  rw [if_neg hmS] at u1 u2 u3 u4 u5 u6 u7 u8
  refine ⟨?_, ⟨_, _, b1, u1, ?_⟩, ⟨_, _, b2, u2, ?_⟩, ⟨_, _, b3, u3, ?_⟩, ⟨_, _, b4, u4, ?_⟩,
    ?_, ?_, ?_⟩
  · rw [b5, u5]
    exact ⟨_, 0x00, [n % 256], _, _, by simp, rfl, rfl⟩
  · exact ⟨_, 0x01, [idx, s0, s1, s2], _, _, by simp, rfl, rfl⟩
  · exact ⟨_, 0x02, [idx, s0, s1, s2], _, _, by simp, rfl, rfl⟩
  · exact ⟨_, 0x03, [s0, s1, s2], _, _, by simp, rfl, rfl⟩
  · exact ⟨_, 0x04, [s0, s1, s2], _, _, by simp, rfl, rfl⟩
  · rw [b6, u6]
    exact ⟨_, 0x05, [], _, _, by simp, rfl, rfl⟩
  · rw [b7, u7]
    exact ⟨_, 0xFC, [0xAA, 0xBB, i], _, _, by simp, rfl, rfl⟩
  · rw [b8, u8]
    exact ⟨_, 0xFD, [0xAA, 0xBB, addr], _, _, by simp, rfl, rfl⟩

/-- C18 at colour order GRB, count 300, colour (10, 20, 30) at index 3, rate 9600. -/
theorem transports_agree_witness :
    9600 ∈ _BAUDRATE ∧
    sameEncoding world0.trace
      (setLedCount (setLedType { mem0 with commMode := I2C_COMMUNICATION_MODE }
        LED_TYPE.TYPE_GRB) world0 envFail 300).2.2.trace
      (setLedCount (setLedType { mem0 with commMode := UART_COMMUNICATION_MODE }
        LED_TYPE.TYPE_GRB) world0 envAck 300).2.2.trace ∧
    sameEncoding world0.trace
      (setUartBaudrate (setLedType { mem0 with commMode := I2C_COMMUNICATION_MODE }
        LED_TYPE.TYPE_GRB) world0 envFail 9600).2.2.trace
      (setUartBaudrate (setLedType { mem0 with commMode := UART_COMMUNICATION_MODE }
        LED_TYPE.TYPE_GRB) world0 envAck 9600).2.2.trace :=
  have h := transports_agree mem0 _ _ LED_TYPE.TYPE_GRB world0 envFail envAck 300 3 10 20 30
    0x30 9600 rfl rfl (by decide)
  ⟨by decide, h.1, h.2.2.2.2.2.2.1⟩

/-! ## The long wait -/

/-- C19: for every value `t` of `uartWaitAckTime`, the wait of a Show operation is
`delayMicroseconds(t)` when `t ≤ 16383` and `delay(t / 1000 + 1)` milliseconds otherwise; it
is never shorter than `t` microseconds and longer by at most 1000 microseconds; for the serial
constructor with LED count `n`, `t = 280 + n * 40 + 10000`, `show()` ends with this wait, and
the millisecond branch is taken exactly when `n ≥ 153`. -/
theorem long_wait_applied (c mem : Controller) (n : Nat) (t : LED_TYPE) (baud : Nat)
    (w : World) (e : Env) :
    ackWait c true =
      (if c.uartWaitAckTime ≤ 16383 then Event.delayMicroseconds c.uartWaitAckTime
       else Event.delay (c.uartWaitAckTime / 1000 + 1)) ∧
    c.uartWaitAckTime ≤ waitMicros (ackWait c true) ∧
    waitMicros (ackWait c true) ≤ c.uartWaitAckTime + 1000 ∧
    (ctorSerial mem n t baud).uartWaitAckTime = 280 + n * 40 + 10000 ∧
    («show» (ctorSerial mem n t baud) w e).2.2.trace =
      w.trace ++
        [Event.serialFlush, Event.serialWrite [0xCC, 0x05, 0, 0, 0, 0, 0xDD, 0xAE],
         ackWait (ctorSerial mem n t baud) true] ∧
    (ackWait (ctorSerial mem n t baud) true =
        Event.delay ((280 + n * 40 + 10000) / 1000 + 1) ↔ 153 ≤ n) ∧
    (ackWait (ctorSerial mem n t baud) true =
        Event.delayMicroseconds (280 + n * 40 + 10000) ↔ n < 153) := by
  have hw : ackWait c true =
      (if c.uartWaitAckTime ≤ 16383 then Event.delayMicroseconds c.uartWaitAckTime
       else Event.delay (c.uartWaitAckTime / 1000 + 1)) := by
    simp only [ackWait, if_true]
    by_cases h : c.uartWaitAckTime ≤ 16383
    · rw [if_pos h, if_neg (by omega)]
    · rw [if_neg h, if_pos (by omega)]
  have hshow := show_trace (ctorSerial mem n t baud) w e
  rw [if_neg (ctorSerial_not_I2C mem n t baud)] at hshow
  refine ⟨hw, ?_, ?_, rfl, hshow, ?_, ?_⟩
  · rw [hw]
    by_cases h : c.uartWaitAckTime ≤ 16383
    · rw [if_pos h]; exact le_refl _
    · rw [if_neg h]
      show c.uartWaitAckTime ≤ (c.uartWaitAckTime / 1000 + 1) * 1000
      omega
  · rw [hw]
    by_cases h : c.uartWaitAckTime ≤ 16383
    · rw [if_pos h]
      show c.uartWaitAckTime ≤ c.uartWaitAckTime + 1000
      omega
    · rw [if_neg h]
      show (c.uartWaitAckTime / 1000 + 1) * 1000 ≤ c.uartWaitAckTime + 1000
      omega
  · rw [ackWait_ctorSerial]
    by_cases h : 280 + n * 40 + 10000 ≤ 16383
    · rw [if_pos h]
      constructor
      · intro hcontra; cases hcontra
      · intro hn; omega
    · rw [if_neg h]
      constructor
      · intro _; omega
      · intro _; rfl
  · rw [ackWait_ctorSerial]
    by_cases h : 280 + n * 40 + 10000 ≤ 16383
    · rw [if_pos h]
      constructor
      · intro _; omega
      · intro _; rfl
    · rw [if_neg h]
      constructor
      · intro hcontra; cases hcontra
      · intro hn; omega

/-! ## The stored baud index -/

/-- C20: in every state `(c2, w2)` reached from the serial-mode constructor by any sequence
of calls of public methods, `uartBaudrateIndex` is below 13 and is still the value the
constructor stored: the first table index whose entry is the requested rate, or 0 when the
rate is not in the table; so the table lookup of `getUartBaudrate` is in bounds and `begin()`
returns and opens the link at the requested rate if it is in the table and at 115200
otherwise. -/
theorem uartBaudrateIndex_invariant (mem : Controller) (n : Nat) (t : LED_TYPE) (baud : Nat)
    (w : World) (calls : List (Call × Env)) (c2 : Controller) (w2 : World)
    (h : run calls (ctorSerial mem n t baud) w = some (c2, w2)) :
    c2.uartBaudrateIndex < 13 ∧
    c2.uartBaudrateIndex = (ctorSerial mem n t baud).uartBaudrateIndex ∧
    (baud ∈ _BAUDRATE →
      _BAUDRATE[c2.uartBaudrateIndex]? = some baud ∧
      ∀ m, m < c2.uartBaudrateIndex → _BAUDRATE[m]? ≠ some baud) ∧
    (baud ∉ _BAUDRATE → c2.uartBaudrateIndex = 0) ∧
    (∀ e, (getUartBaudrate c2 w2 e).1 = some (if baud ∈ _BAUDRATE then baud else 115200)) ∧
    (∀ e, ∃ ack w3 rest,
      begin c2 w2 e = some (ack, c2, w3) ∧
      w3.trace =
        w2.trace ++ Event.serialBegin (if baud ∈ _BAUDRATE then baud else 115200) :: rest) := by
  obtain ⟨hidx, hmode⟩ := run_keeps calls (ctorSerial mem n t baud) c2 w w2 h
  have hm : c2.commMode ≠ I2C_COMMUNICATION_MODE := by
    rw [hmode]; exact ctorSerial_not_I2C mem n t baud
  have hrate : _BAUDRATE[c2.uartBaudrateIndex]? =
      some (if baud ∈ _BAUDRATE then baud else 115200) := by
    rw [hidx]; exact ctorSerial_rate mem n t baud
  have hscan := ctorSerial_uartBaudrateIndex mem n t baud
  refine ⟨?_, hidx, ?_, ?_, ?_, ?_⟩
  · obtain ⟨hlt, _⟩ := List.getElem?_eq_some.mp hrate
    have hlen : _BAUDRATE.length = 13 := rfl
    omega
  · intro hmem
    obtain ⟨j, hj⟩ := baudScan_of_mem baud hmem
    obtain ⟨_, _, h3, h4⟩ := baudScan_some baud 13 0 j hj
    have hj2 : c2.uartBaudrateIndex = j := by rw [hidx, hscan, hj]; rfl
    rw [hj2]
    exact ⟨h3, fun m hlt => h4 m (Nat.zero_le _) hlt⟩
  · intro hmem
    rw [hidx, hscan, baudScan_of_not_mem baud hmem]
    rfl
  · intro e
    simp only [getUartBaudrate, if_neg hm]
    exact hrate
  · intro e
    refine ⟨(setLedCount c2 { w2 with trace := w2.trace ++
        [Event.serialBegin (if baud ∈ _BAUDRATE then baud else 115200)] } e c2.ledCounts).1,
      (setLedCount c2 { w2 with trace := w2.trace ++
        [Event.serialBegin (if baud ∈ _BAUDRATE then baud else 115200)] } e c2.ledCounts).2.2,
      [Event.serialFlush,
       Event.serialWrite [0xCC, 0x00, c2.ledCounts % 256, 0, 0, 0, 0xDD,
         (0xCC + 0x00 + c2.ledCounts % 256 + 0 + 0 + 0 + 0xDD) % 256],
       Event.delayMicroseconds 9000], ?_, ?_⟩
    · simp only [begin, if_neg hm, hrate]
      have hc := setLedCount_ctrl c2 { w2 with trace := w2.trace ++
        [Event.serialBegin (if baud ∈ _BAUDRATE then baud else 115200)] } e c2.ledCounts
      generalize setLedCount c2 { w2 with trace := w2.trace ++
        [Event.serialBegin (if baud ∈ _BAUDRATE then baud else 115200)] } e c2.ledCounts = x
        at hc
      obtain ⟨a, b, d⟩ := x
      have hb : b = c2 := hc
      rw [hb]
    · rw [setLedCount_trace, if_neg hm]
      simp only [List.append_assoc, List.singleton_append]

/-- C20 after `setUartBaudrate(9600)`, `setI2CNewAddress(0x30)` and `setLedType(TYPE_RGB)` on
a controller constructed at 4800: the stored index is still 3, and `getUartBaudrate()`
returns 4800. -/
theorem uartBaudrateIndex_invariant_witness :
    run [(Call.setUartBaudrate 9600, envAck), (Call.setI2CNewAddress 0x30, envAck),
         (Call.setLedType LED_TYPE.TYPE_RGB, envAck)]
        (ctorSerial mem0 8 LED_TYPE.TYPE_GRB 4800) world0 =
      some ({ I2C_Address := 0x30, uartBaudrateIndex := 3, commMode := 1, ledCounts := 8,
              uartWaitAckTime := 10600, rOffset := 0, gOffset := 1, bOffset := 2 },
            { rx := [],
              trace := [Event.serialFlush,
                        Event.serialWrite [0xCC, 0xFC, 0xAA, 0xBB, 4, 0, 0xDD, 0x0E],
                        Event.delayMicroseconds 9000,
                        Event.serialFlush,
                        Event.serialWrite [0xCC, 0xFD, 0xAA, 0xBB, 0x30, 0, 0xDD, 0x3B],
                        Event.delayMicroseconds 9000] }) ∧
    (3 : Nat) < 13 ∧
    (3 : Nat) = (ctorSerial mem0 8 LED_TYPE.TYPE_GRB 4800).uartBaudrateIndex ∧
    (getUartBaudrate
      { I2C_Address := 0x30, uartBaudrateIndex := 3, commMode := 1, ledCounts := 8,
        uartWaitAckTime := 10600, rOffset := 0, gOffset := 1, bOffset := 2 }
      { rx := [],
        trace := [Event.serialFlush,
                  Event.serialWrite [0xCC, 0xFC, 0xAA, 0xBB, 4, 0, 0xDD, 0x0E],
                  Event.delayMicroseconds 9000,
                  Event.serialFlush,
                  Event.serialWrite [0xCC, 0xFD, 0xAA, 0xBB, 0x30, 0, 0xDD, 0x3B],
                  Event.delayMicroseconds 9000] } envAck).1 =
      some (if 4800 ∈ _BAUDRATE then 4800 else 115200) :=
  have h := uartBaudrateIndex_invariant mem0 8 LED_TYPE.TYPE_GRB 4800 world0
    [(Call.setUartBaudrate 9600, envAck), (Call.setI2CNewAddress 0x30, envAck),
     (Call.setLedType LED_TYPE.TYPE_RGB, envAck)]
    { I2C_Address := 0x30, uartBaudrateIndex := 3, commMode := 1, ledCounts := 8,
      uartWaitAckTime := 10600, rOffset := 0, gOffset := 1, bOffset := 2 }
    { rx := [],
      trace := [Event.serialFlush,
                Event.serialWrite [0xCC, 0xFC, 0xAA, 0xBB, 4, 0, 0xDD, 0x0E],
                Event.delayMicroseconds 9000,
                Event.serialFlush,
                Event.serialWrite [0xCC, 0xFD, 0xAA, 0xBB, 0x30, 0, 0xDD, 0x3B],
                Event.delayMicroseconds 9000] }
    (by decide)
  ⟨by decide, h.1, h.2.1, h.2.2.2.2.1 envAck⟩

end LEDStripController
